import Mathlib

/-!
# Disaster-Aid dashboards: a shallow embedding of `static/gov.js` and `static/nongov.js`

Every handler of the two scripts is a function from what it reads (input values, the answer of
`confirm`, the responses of the backend) to the list of observable actions it performs, in
program order.  An `await` is the point where a response, supplied as an argument, is consumed.

Numbers: `parseInt` returns `NaN`, an infinity, or the IEEE double nearest to the integer it
reads (`toNumber`), which is that integer up to `2 ^ 53`.  A number is written into markup as
its decimal numeral up to `2 ^ 53`; the text of a larger number (rounded digits, exponent form
from `10 ^ 21`) is the parameter `largeNumberToString`.  `String.prototype.toUpperCase` and
`encodeURIComponent` are platform functions too, and parameters of the definitions that use
them.  What a handler reads from the document (input values, `innerHTML`) is an argument.
-/

namespace DisasterAid

/-! ## JavaScript values -/

/-- The numbers that occur in the scripts: `NaN`, the two infinities, or a number whose value
is an integer. The numbers `parseInt` returns are doubles (see `toNumber`); an argument such as
`maxQty` ranges over all integers, which include every integer-valued double, and two numbers
compare as their values do. -/
inductive JSNumber where
  | nan
  | inf (negative : Bool)
  | int (n : Int)
  deriving DecidableEq, Repr

/-- JavaScript `a <= b` on numbers: false as soon as one side is `NaN`. -/
def JSNumber.le : JSNumber → JSNumber → Bool
  | .int a, .int b => decide (a ≤ b)
  | .inf negative, .int _ => negative
  | .int _, .inf negative => !negative
  | .inf negative, .inf negative2 => negative || !negative2
  | _, _ => false

/-- JavaScript `a > b` on numbers: false as soon as one side is `NaN`. -/
def JSNumber.gt : JSNumber → JSNumber → Bool
  | .int a, .int b => decide (a > b)
  | .inf negative, .int _ => !negative
  | .int _, .inf negative => negative
  | .inf negative, .inf negative2 => !negative && negative2
  | _, _ => false

/-- Number of binary digits of `n`, computed with `fuel` halvings at most. -/
def bitLengthAux : Nat → Nat → Nat
  | 0, _ => 0
  | fuel + 1, n => if n = 0 then 0 else bitLengthAux fuel (n / 2) + 1

/-- Number of binary digits of `n`. -/
def bitLength (n : Nat) : Nat :=
  bitLengthAux n n

/-- The Number value of a natural number: the nearest IEEE double, a tie going to the even
significand, and `+Infinity` from `2 ^ 1024` on. Up to `2 ^ 53` it is the number itself; above,
the 53 leading binary digits `m` are kept and the `e` digits `r` below them rounded away. -/
def toNumber (n : Nat) : JSNumber :=
  if n ≤ 2 ^ 53 then .int n
  else
    let e := bitLength n - 53
    let m := n / 2 ^ e
    let r := n % 2 ^ e
    let m1 := if 2 * r > 2 ^ e ∨ (2 * r = 2 ^ e ∧ m % 2 = 1) then m + 1 else m
    if m1 * 2 ^ e ≥ 2 ^ 1024 then .inf false else .int (m1 * 2 ^ e)

/-- The number `sign × x` for the sign read by `parseInt`. -/
def JSNumber.withSign (negative : Bool) : JSNumber → JSNumber
  | .nan => .nan
  | .inf _ => .inf negative
  | .int n => .int (if negative then -n else n)

/-- The text `Number::toString` gives for a number whose value is the integer `n`: its decimal
numeral up to `2 ^ 53`, and for larger values the platform's text `largeNumberToString n`. -/
def numberToString (largeNumberToString : Int → String) (n : Int) : String :=
  if n.natAbs ≤ 2 ^ 53 then toString n else largeNumberToString n

/-- The code points ECMAScript counts as `WhiteSpace` or `LineTerminator`; `parseInt` skips them
at the start of its argument and `trim` removes them at both ends. -/
def isStrWhiteSpaceChar (c : Char) : Bool :=
  decide (c.toNat ∈ [0x9, 0xA, 0xB, 0xC, 0xD, 0x20, 0xA0, 0x1680, 0x2028, 0x2029, 0x202F,
    0x205F, 0x3000, 0xFEFF]) || (decide (0x2000 ≤ c.toNat) && decide (c.toNat ≤ 0x200A))

/-- Value of a character as a digit, letters standing for 10 to 35. -/
def digitValue (c : Char) : Option Nat :=
  if 48 ≤ c.toNat ∧ c.toNat ≤ 57 then some (c.toNat - 48)
  else if 97 ≤ c.toNat ∧ c.toNat ≤ 122 then some (c.toNat - 97 + 10)
  else if 65 ≤ c.toNat ∧ c.toNat ≤ 90 then some (c.toNat - 65 + 10)
  else none

/-- Value of a character as a digit of radix `R`, if it is one. -/
def radixDigit (R : Nat) (c : Char) : Option Nat :=
  match digitValue c with
  | some d => if d < R then some d else none
  | none => none

/-- The longest prefix made of radix-`R` digits, as digit values. -/
def takeDigits (R : Nat) : List Char → List Nat
  | [] => []
  | c :: cs =>
    match radixDigit R c with
    | some d => d :: takeDigits R cs
    | none => []

/-- The integer denoted by a list of digit values, most significant first. -/
def digitsValue (R : Nat) (ds : List Nat) : Nat :=
  ds.foldl (fun acc d => acc * R + d) 0

/-- Steps 3 and 4 of `parseInt`: an optional sign. -/
def stripSign : List Char → Bool × List Char
  | '-' :: r => (true, r)
  | '+' :: r => (false, r)
  | s => (false, s)

/-- Step 6 of `parseInt` without a radix argument: `0x` or `0X` selects radix 16. -/
def stripHexPrefix : List Char → Nat × List Char
  | '0' :: 'x' :: r => (16, r)
  | '0' :: 'X' :: r => (16, r)
  | s => (10, s)

/-- ECMAScript `parseInt(string)` with no radix argument: the Number value of the integer
denoted by the digits, with the sign read. (Past the 20th significant digit an implementation
may read digits as zeros; here every digit counts.) -/
def parseInt (string : String) : JSNumber :=
  let s := string.toList.dropWhile isStrWhiteSpaceChar
  let signed := stripSign s
  let based := stripHexPrefix signed.2
  let Z := takeDigits based.1 based.2
  if Z = [] then JSNumber.nan
  else
    let mathInt : Nat := digitsValue based.1 Z
    (toNumber mathInt).withSign signed.1

/-- ECMAScript `String.prototype.trim`. -/
def trim (s : String) : String :=
  String.mk (((s.toList.dropWhile isStrWhiteSpaceChar).reverse.dropWhile
    isStrWhiteSpaceChar).reverse)

/-! ## Requests, responses and observable actions -/

/-- A value of a JSON request body. `JSON.stringify` writes `NaN` and the infinities as
`null`. -/
inductive JSONValue where
  | str (s : String)
  | num (n : JSNumber)
  deriving DecidableEq, Repr

/-- The arguments of a `fetch` call; `body` is the object handed to `JSON.stringify`. -/
structure Request where
  method : String
  url : String
  headers : List (String × String)
  body : Option (List (String × JSONValue))
  deriving DecidableEq, Repr

/-- The `fetch(url)` form: a GET without headers or body. -/
def Request.get (url : String) : Request :=
  { method := "GET", url := url, headers := [], body := none }

/-- The `fetch(url, {method: 'POST', headers: {'Content-Type': 'application/json'}, body})`
form. -/
def Request.postJson (url : String) (body : List (String × JSONValue)) : Request :=
  { method := "POST", url := url, headers := [("Content-Type", "application/json")],
    body := some body }

/-- The `fetch(url, {method: 'POST'})` form. -/
def Request.post (url : String) : Request :=
  { method := "POST", url := url, headers := [], body := none }

/-- What a handler looks at in the response of a write: `response.ok` and the `message` member
of the parsed body, as a template literal renders it. -/
structure Response where
  ok : Bool
  message : String
  deriving DecidableEq, Repr

/-- The observable actions of the scripts. -/
inductive Effect where
  | preventDefault
  | fetch (req : Request)
  | alert (msg : String)
  | confirm (msg : String)
  | reset (formId : String)
  | setInnerHTML (id : String) (html : String)
  | setValue (id : String) (value : String)
  | scrollToBottom (id : String)
  | addSubmitListener (id : String)
  | defineSendMentalMessage
  deriving DecidableEq, Repr

/-- JavaScript `array.join('')` of strings. -/
def joinEmpty (parts : List String) : String :=
  parts.foldl (fun acc s => acc ++ s) ""

/-! ## Data model -/

/-- An entry of `/api/inventory` and `/api/available-supplies`. -/
structure Supply where
  name : String
  quantity : Int
  unit : Option String
  deriving DecidableEq, Repr

/-- The expression `supply.unit || 'units'`: a missing or empty unit gives `units`. -/
def Supply.unitOrDefault (supply : Supply) : String :=
  match supply.unit with
  | none => "units"
  | some u => if u = "" then "units" else u

/-- A report of `/api/reports`. -/
structure Report where
  disaster_type : String
  name : String
  timestamp : String
  details : String
  deriving DecidableEq, Repr

/-- The body of `/api/mental-health/check`. -/
structure MentalHealthStatus where
  available : Bool
  configured : Bool
  deriving DecidableEq, Repr

/-! ## The part of the document the scripts write to -/

/-- The markup last assigned to the `innerHTML` of the element `id` by the actions of `trace`,
and `html` when none of them assigns it. -/
def innerHTMLAfter (id : String) (html : String) : List Effect → String
  | [] => html
  | .setInnerHTML i h :: rest =>
    if i = id then innerHTMLAfter id h rest else innerHTMLAfter id html rest
  | _ :: rest => innerHTMLAfter id html rest

/-- Does the action reset a form, assign an input value or write a container? -/
def Effect.writesDocument : Effect → Bool
  | .reset _ => true
  | .setValue _ _ => true
  | .setInnerHTML _ _ => true
  | _ => false

/-- Does the action reset the form `id` or assign the value of the input `id`? -/
def Effect.clears (id : String) : Effect → Bool
  | .reset i => decide (i = id)
  | .setValue i _ => decide (i = id)
  | _ => false

/-! ## `gov.js` -/

namespace Gov

section
variable (toUpperCase : String → String) (largeNumberToString : Int → String)
variable (encodeURIComponent : String → String)

/-- The card template of `loadInventory` (gov.js lines 55-62). -/
def inventoryCard (supply : Supply) : String :=
  "\n" ++
  "        <div class=\"inventory-card\">\n" ++
  "            <div>\n" ++
  "                <h4>" ++ toUpperCase supply.name ++ "</h4>\n" ++
  "                <p>Quantity: <strong>" ++
    numberToString largeNumberToString supply.quantity ++ " " ++
    supply.unitOrDefault ++ "</strong></p>\n" ++
  "            </div>\n" ++
  "        </div>\n" ++
  "    "

/-- Function `loadInventory` of gov.js; `supplies` is the parsed body of the response. -/
def loadInventory (supplies : List Supply) : List Effect :=
  [ Effect.fetch (Request.get "/api/inventory"),
    if supplies.length = 0 then
      Effect.setInnerHTML "inventoryList" "<p>No supplies in inventory.</p>"
    else
      Effect.setInnerHTML "inventoryList"
        (joinEmpty (supplies.map (inventoryCard toUpperCase largeNumberToString))) ]

/-- The submit handler of `addSupplyForm` (gov.js lines 20-41). -/
def addSupplyFormSubmit (supplyType supplyQty : String) (response : Response)
    (supplies : List Supply) : List Effect :=
  Effect.preventDefault ::
  Effect.fetch (Request.postJson "/api/add-supplies"
      [("supply", .str supplyType), ("quantity", .str supplyQty)]) ::
    (if response.ok then
      Effect.alert "✅ Supplies added successfully!" ::
      Effect.reset "addSupplyForm" ::
      loadInventory toUpperCase largeNumberToString supplies
    else
      [ Effect.alert "❌ Failed to add supplies." ])

/-- The card template of `loadReports` (gov.js lines 77-89); `index` is the second argument of
the `map` callback. -/
def reportCard (report : Report) (index : Nat) : String :=
  "\n" ++
  "        <div class=\"report-card\">\n" ++
  "            <div>\n" ++
  "                <h4>📋 " ++ toUpperCase report.disaster_type ++ "</h4>\n" ++
  "                <p><strong>Reporter:</strong> " ++ report.name ++ "</p>\n" ++
  "                <p><strong>Time:</strong> " ++ report.timestamp ++ "</p>\n" ++
  "                <p><strong>Details:</strong> " ++ report.details ++ "</p>\n" ++
  "            </div>\n" ++
  "            <div class=\"card-actions\">\n" ++
  "                <button class=\"btn btn-danger btn-small\" onclick=\"deleteReport(" ++
    toString (index + 1) ++ ")\">Delete</button>\n" ++
  "            </div>\n" ++
  "        </div>\n" ++
  "    "

/-- The cards `loadReports` builds: `reports.map((report, index) => ...)`. -/
def reportCards (reports : List Report) : List String :=
  reports.mapIdx (fun index report => reportCard toUpperCase report index)

/-- Function `loadReports` of gov.js. -/
def loadReports (reports : List Report) : List Effect :=
  [ Effect.fetch (Request.get "/api/reports"),
    if reports.length = 0 then
      Effect.setInnerHTML "reportsList" "<p>No reports filed yet.</p>"
    else
      Effect.setInnerHTML "reportsList" (joinEmpty (reportCards toUpperCase reports)) ]

/-- Function `deleteReport(reportId)` of gov.js; `confirmed` is the answer of `confirm`. -/
def deleteReport (reportId : Nat) (confirmed : Bool) (response : Response)
    (reports : List Report) : List Effect :=
  Effect.confirm "Are you sure you want to delete this report?" ::
    (if !confirmed then []
    else
      Effect.fetch (Request.post ("/api/delete-report/" ++ toString reportId)) ::
        (if response.ok then
          Effect.alert "✅ Report deleted." :: loadReports toUpperCase reports
        else
          [ Effect.alert "❌ Failed to delete report." ]))

/-- The card template of `loadStations` (gov.js lines 120-130). -/
def stationCard (station : String) : String :=
  "\n" ++
  "        <div class=\"station-card\">\n" ++
  "            <div>\n" ++
  "                <h4>🏢 " ++ station ++ "</h4>\n" ++
  "                <p>Registered aid centre</p>\n" ++
  "            </div>\n" ++
  "            <div class=\"card-actions\">\n" ++
  "                <button class=\"btn btn-danger btn-small\" onclick=\"deleteStation('" ++
    station ++ "')\">Delete</button>\n" ++
  "            </div>\n" ++
  "        </div>\n" ++
  "    "

/-- Function `loadStations` of gov.js. -/
def loadStations (stations : List String) : List Effect :=
  [ Effect.fetch (Request.get "/api/stations"),
    if stations.length = 0 then
      Effect.setInnerHTML "stationsList" "<p>No aid centres registered.</p>"
    else
      Effect.setInnerHTML "stationsList" (joinEmpty (stations.map stationCard)) ]

/-- The submit handler of `addStationForm` (gov.js lines 134-155). -/
def addStationFormSubmit (stationName : String) (response : Response)
    (stations : List String) : List Effect :=
  Effect.preventDefault ::
  Effect.fetch (Request.postJson "/api/add-station" [("name", .str stationName)]) ::
    (if response.ok then
      Effect.alert "✅ Aid centre added successfully!" ::
      Effect.reset "addStationForm" ::
      loadStations stations
    else
      [ Effect.alert ("❌ " ++ response.message) ])

/-- Function `deleteStation(name)` of gov.js; `confirmed` is the answer of `confirm`. -/
def deleteStation (name : String) (confirmed : Bool) (response : Response)
    (stations : List String) : List Effect :=
  Effect.confirm ("Delete \"" ++ name ++ "\"?") ::
    (if !confirmed then []
    else
      Effect.fetch (Request.post ("/api/delete-station/" ++ encodeURIComponent name)) ::
        (if response.ok then
          Effect.alert "✅ Centre deleted." :: loadStations stations
        else
          [ Effect.alert "❌ Failed to delete centre." ]))

end

end Gov

/-! ## `nongov.js` -/

namespace Nongov

section
variable (toUpperCase : String → String) (largeNumberToString : Int → String)

/-- The submit handler of `reportForm` (nongov.js lines 20-43). -/
def reportFormSubmit (disasterType details address city country : String)
    (response : Response) : List Effect :=
  Effect.preventDefault ::
  Effect.fetch (Request.postJson "/api/file-report"
      [("disaster_type", .str disasterType), ("details", .str details),
        ("address", .str address), ("city", .str city), ("country", .str country)]) ::
    (if response.ok then
      [ Effect.alert "✅ Report filed successfully!", Effect.reset "reportForm" ]
    else
      [ Effect.alert "❌ Failed to file report. Please try again." ])

/-- The card template of `loadSupplies` (nongov.js lines 57-68). -/
def supplyCard (supply : Supply) : String :=
  "\n" ++
  "        <div class=\"supply-card\">\n" ++
  "            <div>\n" ++
  "                <h4>" ++ toUpperCase supply.name ++ "</h4>\n" ++
  "                <p>Available: <strong>" ++
    numberToString largeNumberToString supply.quantity ++ " " ++
    supply.unitOrDefault ++ "</strong></p>\n" ++
  "            </div>\n" ++
  "            <div>\n" ++
  "                <input type=\"number\" id=\"qty-" ++ supply.name ++ "\" min=\"1\" max=\"" ++
    numberToString largeNumberToString supply.quantity ++
    "\" value=\"1\" style=\"width: 80px; padding: 8px;\">\n" ++
  "                <button class=\"btn btn-primary\" onclick=\"requestSupply('" ++ supply.name ++
    "', " ++ numberToString largeNumberToString supply.quantity ++ ")\">Request</button>\n" ++
  "            </div>\n" ++
  "        </div>\n" ++
  "    "

/-- Function `loadSupplies` of nongov.js; `supplies` is the parsed body of the response. -/
def loadSupplies (supplies : List Supply) : List Effect :=
  [ Effect.fetch (Request.get "/api/available-supplies"),
    if supplies.length = 0 then
      Effect.setInnerHTML "suppliesList" "<p>No supplies available at this time.</p>"
    else
      Effect.setInnerHTML "suppliesList"
        (joinEmpty (supplies.map (supplyCard toUpperCase largeNumberToString))) ]

/-- Function `requestSupply(supply, maxQty)` of nongov.js. `qtyValue` is the text held by the
input `qty-` followed by the supply name, `response` the answer to the POST, `supplies` the
answer to the reload that follows a success. -/
def requestSupply (supply : String) (maxQty : Int) (qtyValue : String) (response : Response)
    (supplies : List Supply) : List Effect :=
  let quantity := parseInt qtyValue
  if quantity.le (.int 0) || quantity.gt (.int maxQty) then
    [ Effect.alert ("❌ Please enter a valid quantity (1-" ++
        numberToString largeNumberToString maxQty ++ ").") ]
  else
    Effect.fetch (Request.postJson "/api/request-aid"
        [("supply", .str supply), ("quantity", .num quantity)]) ::
      (if response.ok then
        Effect.alert ("✅ " ++ response.message) ::
          loadSupplies toUpperCase largeNumberToString supplies
      else
        [ Effect.alert ("❌ " ++ response.message) ])

end

/-- The card template of `loadStations` (nongov.js lines 109-116). -/
def stationCard (station : String) : String :=
  "\n" ++
  "        <div class=\"station-card\">\n" ++
  "            <div>\n" ++
  "                <h4>🏢 " ++ station ++ "</h4>\n" ++
  "                <p>Available to provide assistance</p>\n" ++
  "            </div>\n" ++
  "        </div>\n" ++
  "    "

/-- Function `loadStations` of nongov.js. -/
def loadStations (stations : List String) : List Effect :=
  [ Effect.fetch (Request.get "/api/list-stations"),
    if stations.length = 0 then
      Effect.setInnerHTML "stationsList" "<p>No help stations registered yet.</p>"
    else
      Effect.setInnerHTML "stationsList" (joinEmpty (stations.map stationCard)) ]

/-- The notice of nongov.js line 127. -/
def unavailableHtml : String :=
  "<p>Mental health support is not available at this time.</p>"

/-- The key-entry form of nongov.js lines 132-144. -/
def configHtml : String :=
  "\n" ++
  "            <div class=\"mental-config\">\n" ++
  "                <h4>🔧 Configure Mental Health AI</h4>\n" ++
  "                <p>To use mental health support, please provide your OpenAI API key:</p>\n" ++
  "                <form id=\"configForm\" style=\"margin-top: 15px;\">\n" ++
  "                    <div class=\"form-group\">\n" ++
  "                        <label for=\"apiKey\">OpenAI API Key:</label>\n" ++
  "                        <input type=\"password\" id=\"apiKey\" placeholder=\"sk-...\" required>\n" ++
  "                    </div>\n" ++
  "                    <button type=\"submit\" class=\"btn btn-primary\">Configure AI</button>\n" ++
  "                </form>\n" ++
  "            </div>\n" ++
  "        "

/-- The chat transcript and input of nongov.js lines 165-171. -/
def chatHtml : String :=
  "\n" ++
  "            <div class=\"chat-container\" id=\"chatBox\"></div>\n" ++
  "            <div class=\"chat-input-group\">\n" ++
  "                <input type=\"text\" id=\"messageInput\" placeholder=\"Share how you're feeling...\">\n" ++
  "                <button class=\"btn btn-primary\" onclick=\"sendMentalMessage()\">Send</button>\n" ++
  "            </div>\n" ++
  "        "

/-- Function `loadMentalHealth` of nongov.js; `status` is the parsed body of the response. -/
def loadMentalHealth (status : MentalHealthStatus) : List Effect :=
  Effect.fetch (Request.get "/api/mental-health/check") ::
    (if !status.available then
      [ Effect.setInnerHTML "mentalContent" unavailableHtml ]
    else if !status.configured then
      [ Effect.setInnerHTML "mentalContent" configHtml, Effect.addSubmitListener "configForm" ]
    else
      [ Effect.setInnerHTML "mentalContent" chatHtml, Effect.defineSendMentalMessage ])

/-- The submit handler of `configForm` (nongov.js lines 146-163); `status` is the answer to the
status read that follows a success. -/
def configFormSubmit (apiKey : String) (response : Response)
    (status : MentalHealthStatus) : List Effect :=
  Effect.preventDefault ::
  Effect.fetch (Request.postJson "/api/mental-health/configure" [("api_key", .str apiKey)]) ::
    (if response.ok then
      Effect.alert "✅ AI configured successfully!" :: loadMentalHealth status
    else
      [ Effect.alert ("❌ " ++ response.message) ])

/-- The transcript entry of nongov.js line 180. -/
def userEntry (message : String) : String :=
  "<div class=\"chat-message user\">" ++ message ++ "</div>"

/-- The transcript entry of nongov.js line 191. -/
def botEntry (message : String) : String :=
  "<div class=\"chat-message bot\">" ++ message ++ "</div>"

/-- The request of nongov.js lines 184-188. -/
def messageRequest (message : String) : Request :=
  Request.postJson "/api/mental-health/message" [("message", .str message)]

/-- Function `window.sendMentalMessage` of nongov.js (lines 173-193). `inputValue` is the text
of `messageInput`; `response` is the answer to the POST, whose `ok` flag the function never
reads. An update `chatBox.innerHTML += x` reads the markup the browser serialises for the chat
box and assigns that markup followed by `x`: `transcript` is the markup read on line 180 and
`readBack` the markup read on line 191, after the response. -/
def sendMentalMessage (inputValue : String) (transcript readBack : String)
    (response : Response) : List Effect :=
  let message := trim inputValue
  if message = "" then []
  else
    [ Effect.setInnerHTML "chatBox" (transcript ++ userEntry message),
      Effect.setValue "messageInput" "",
      Effect.scrollToBottom "chatBox",
      Effect.fetch (messageRequest message),
      Effect.setInnerHTML "chatBox" (readBack ++ botEntry response.message),
      Effect.scrollToBottom "chatBox" ]

end Nongov

/-! ## Tab switching (lines 4-17 of both scripts) -/

/-- What the tab handlers see of an element. -/
structure Element where
  id : Option String
  classList : List String
  dataTab : Option String
  deriving DecidableEq, Repr

/-- The elements of the document, in document order. -/
abbrev Document := List Element

/-- The call `classList.remove(token)`. -/
def Element.classListRemove (token : String) (e : Element) : Element :=
  { e with classList := e.classList.filter (fun t => decide (t ≠ token)) }

/-- The call `classList.add(token)`. -/
def Element.classListAdd (token : String) (e : Element) : Element :=
  if token ∈ e.classList then e else { e with classList := e.classList ++ [token] }

/-- The loop `document.querySelectorAll('.' + cls).forEach(f)` for an `f` that updates the
element it is given. -/
def forEachOfClass (cls : String) (f : Element → Element) (doc : Document) : Document :=
  doc.map (fun e => if cls ∈ e.classList then f e else e)

/-- Position of the first element whose id attribute is `id`. -/
def firstWithId : Document → String → Option Nat
  | [], _ => none
  | e :: es, id =>
    if e.id = some id then some 0 else (firstWithId es id).map (fun k => k + 1)

/-- The call `document.getElementById(id)`, as the position of the element found: the first
element with that id, and no element at all for the empty string. -/
def getElementById (doc : Document) (id : String) : Option Nat :=
  if id = "" then none else firstWithId doc id

/-- Update of the element at position `k`. -/
def updateAt (doc : Document) (k : Nat) (f : Element → Element) : Document :=
  match doc[k]? with
  | some e => doc.set k (f e)
  | none => doc

/-- The loaders a tab handler can start. -/
inductive Loader where
  | loadInventory
  | loadReports
  | loadStations
  | loadSupplies
  | loadMentalHealth
  deriving DecidableEq, Repr

/-- Outcome of a click: the document, and the loaders started, or `none` when line 11 threw
because no element has the id. -/
structure ClickResult where
  doc : Document
  loaders : Option (List Loader)
  deriving DecidableEq, Repr

/-- Lines 6-11 of both scripts, for a click on the element at position `button`; the second
component is `tabId` when line 11 succeeded. -/
def activateTab (doc : Document) (button : Nat) : Document × Option (Option String) :=
  let doc1 := forEachOfClass "tab-button" (Element.classListRemove "active") doc
  let doc2 := forEachOfClass "tab-content" (Element.classListRemove "active") doc1
  let doc3 := updateAt doc2 button (Element.classListAdd "active")
  let tabId : Option String := (doc3[button]?).bind (fun b => b.dataTab)
  match getElementById doc3 (tabId.getD "null") with
  | none => (doc3, none)
  | some panel => (updateAt doc3 panel (Element.classListAdd "active"), some tabId)

/-- The click handler of gov.js lines 5-16. -/
def Gov.tabButtonClick (doc : Document) (button : Nat) : ClickResult :=
  match activateTab doc button with
  | (doc1, none) => { doc := doc1, loaders := none }
  | (doc1, some tabId) =>
    { doc := doc1,
      loaders := some ((if tabId = some "inventory" then [Loader.loadInventory] else []) ++
        (if tabId = some "reports" then [Loader.loadReports] else []) ++
        (if tabId = some "stations" then [Loader.loadStations] else [])) }

/-- The click handler of nongov.js lines 5-16. -/
def Nongov.tabButtonClick (doc : Document) (button : Nat) : ClickResult :=
  match activateTab doc button with
  | (doc1, none) => { doc := doc1, loaders := none }
  | (doc1, some tabId) =>
    { doc := doc1,
      loaders := some ((if tabId = some "request" then [Loader.loadSupplies] else []) ++
        (if tabId = some "stations" then [Loader.loadStations] else []) ++
        (if tabId = some "mental" then [Loader.loadMentalHealth] else [])) }

/-! ## Definitions used by the statements -/

/-- The decimal numeral of `n`, as the list of its digit values. -/
def decimalDigits (fuel n : Nat) : List Nat :=
  match fuel with
  | 0 => []
  | f + 1 => if n < 10 then [n] else decimalDigits f (n / 10) ++ [n % 10]


/-- Is the action a GET request? Every list loader starts with one, and no write is a GET. -/
def Effect.isGet : Effect → Bool
  | .fetch req => decide (req.method = "GET")
  | _ => false

/-- Is the action a form reset? -/
def Effect.isReset : Effect → Bool
  | .reset _ => true
  | _ => false

/-- A trace that leaves the forms, inputs and containers as they are and starts no loader. -/
def keepsFormAndList (trace : List Effect) : Bool :=
  trace.all (fun e => !e.writesDocument && !e.isGet)

/-- Upper-casing of the letters `a` to `z`: what `toUpperCase` does on such text, used to
instantiate it in examples. -/
def asciiToUpperCase (s : String) : String :=
  String.mk (s.toList.map (fun c =>
    if 97 ≤ c.toNat ∧ c.toNat ≤ 122 then Char.ofNat (c.toNat - 32) else c))

/-- The three views of the mental-health panel. -/
inductive View where
  | unavailable
  | needsConfiguration
  | chatActive
  deriving DecidableEq, Repr

/-- The markup that shows a view in `mentalContent`. -/
def View.html : View → String
  | .unavailable => Nongov.unavailableHtml
  | .needsConfiguration => Nongov.configHtml
  | .chatActive => Nongov.chatHtml

/-- The element a tab handler leaves at a position: `active` is removed from tab buttons and
panels, then added at the clicked position and at the position of the named panel. -/
def afterClick (i j k : Nat) (e : Element) : Element :=
  let e1 := if "tab-button" ∈ e.classList then e.classListRemove "active" else e
  let e2 := if "tab-content" ∈ e1.classList then e1.classListRemove "active" else e1
  let e3 := if k = i then e2.classListAdd "active" else e2
  if k = j then e3.classListAdd "active" else e3

/-! ## Decimal numerals are read back by `parseInt` -/

theorem toDigitsCore_append (fuel : Nat) : ∀ (n : Nat) (ds : List Char),
    Nat.toDigitsCore 10 fuel n ds = Nat.toDigitsCore 10 fuel n [] ++ ds := by
  induction fuel with
  | zero => intro n ds; simp [Nat.toDigitsCore]
  | succ f ih =>
    intro n ds
    simp only [Nat.toDigitsCore]
    split
    · simp
    · rw [ih (n / 10) (Nat.digitChar (n % 10) :: ds), ih (n / 10) [Nat.digitChar (n % 10)]]
      simp

theorem toDigitsCore_small (fuel n : Nat) (h : n < 10) :
    Nat.toDigitsCore 10 (fuel + 1) n [] = [Nat.digitChar n] := by
  have h0 : n / 10 = 0 := Nat.div_eq_of_lt h
  simp [Nat.toDigitsCore, h0, Nat.mod_eq_of_lt h]

theorem toDigitsCore_step (fuel n : Nat) (h : 10 ≤ n) :
    Nat.toDigitsCore 10 (fuel + 1) n [] =
      Nat.toDigitsCore 10 fuel (n / 10) [] ++ [Nat.digitChar (n % 10)] := by
  have h0 : n / 10 ≠ 0 := by omega
  simp only [Nat.toDigitsCore, h0, if_false]
  exact toDigitsCore_append fuel (n / 10) [Nat.digitChar (n % 10)]

theorem radixDigit_digitChar (d : Nat) (h : d < 10) :
    radixDigit 10 (Nat.digitChar d) = some d := by
  interval_cases d <;> decide

theorem isStrWhiteSpaceChar_digitChar (d : Nat) (h : d < 10) :
    isStrWhiteSpaceChar (Nat.digitChar d) = false := by
  interval_cases d <;> decide

theorem toDigitsCore_eq_map (fuel : Nat) : ∀ n, n < fuel →
    Nat.toDigitsCore 10 fuel n [] = (decimalDigits fuel n).map Nat.digitChar := by
  induction fuel with
  | zero => intro n h; omega
  | succ f ih =>
    intro n h
    by_cases hn : n < 10
    · rw [toDigitsCore_small f n hn]; simp [decimalDigits, hn]
    · rw [toDigitsCore_step f n (by omega), ih (n / 10) (by omega)]
      simp [decimalDigits, hn]

theorem decimalDigits_lt (fuel : Nat) : ∀ n, ∀ d ∈ decimalDigits fuel n, d < 10 := by
  induction fuel with
  | zero => intro n d h; simp [decimalDigits] at h
  | succ f ih =>
    intro n d h
    by_cases hn : n < 10
    · simp [decimalDigits, hn] at h; omega
    · simp only [decimalDigits, hn, if_false, List.mem_append, List.mem_singleton] at h
      rcases h with h | h
      · exact ih _ _ h
      · omega

theorem decimalDigits_ne_nil (fuel n : Nat) : decimalDigits (fuel + 1) n ≠ [] := by
  by_cases hn : n < 10 <;> simp [decimalDigits, hn]

theorem digitsValue_append (R : Nat) (ds : List Nat) (d : Nat) :
    digitsValue R (ds ++ [d]) = digitsValue R ds * R + d := by
  simp [digitsValue, List.foldl_append]

theorem digitsValue_decimalDigits (fuel : Nat) : ∀ n, n < fuel →
    digitsValue 10 (decimalDigits fuel n) = n := by
  induction fuel with
  | zero => intro n h; omega
  | succ f ih =>
    intro n h
    by_cases hn : n < 10
    · simp [decimalDigits, hn, digitsValue]
    · simp only [decimalDigits, hn, if_false]
      rw [digitsValue_append, ih (n / 10) (by omega)]
      omega

theorem takeDigits_map_digitChar (ds : List Nat) (h : ∀ d ∈ ds, d < 10) :
    takeDigits 10 (ds.map Nat.digitChar) = ds := by
  induction ds with
  | nil => rfl
  | cons d ds ih =>
    have hd : d < 10 := h d (List.mem_cons_self _ _)
    simp only [List.map_cons, takeDigits, radixDigit_digitChar d hd]
    rw [ih (fun x hx => h x (List.mem_cons_of_mem _ hx))]

theorem stripHexPrefix_digits (ds : List Nat) (hlt : ∀ d ∈ ds, d < 10) :
    stripHexPrefix (ds.map Nat.digitChar) = (10, ds.map Nat.digitChar) := by
  match ds, hlt with
  | [], _ => rfl
  | [d], _ => simp [stripHexPrefix]
  | d :: e :: r, hlt =>
    have he : e < 10 := hlt e (by simp)
    have hx : Nat.digitChar e ≠ 'x' := by interval_cases e <;> decide
    have hX : Nat.digitChar e ≠ 'X' := by interval_cases e <;> decide
    simp only [List.map_cons]
    unfold stripHexPrefix
    split
    · rename_i heq; simp only [List.cons.injEq] at heq; exact absurd heq.2.1 hx
    · rename_i heq; simp only [List.cons.injEq] at heq; exact absurd heq.2.1 hX
    · rfl

theorem stripSign_digit (d : Nat) (hd : d < 10) (cs : List Char) :
    stripSign (Nat.digitChar d :: cs) = (false, Nat.digitChar d :: cs) := by
  have hm : Nat.digitChar d ≠ '-' := by interval_cases d <;> decide
  have hp : Nat.digitChar d ≠ '+' := by interval_cases d <;> decide
  unfold stripSign
  split
  · rename_i heq; simp only [List.cons.injEq] at heq; exact absurd heq.1 hm
  · rename_i heq; simp only [List.cons.injEq] at heq; exact absurd heq.1 hp
  · rfl

/-- What `parseInt` computes on a list of decimal digits with an optional minus sign. -/
theorem parseInt_digits (neg : Bool) (ds : List Nat) (hne : ds ≠ [])
    (hlt : ∀ d ∈ ds, d < 10) :
    parseInt (String.mk ((if neg then ['-'] else []) ++ ds.map Nat.digitChar)) =
      (toNumber (digitsValue 10 ds)).withSign neg := by
  obtain ⟨d, r, rfl⟩ : ∃ d r, ds = d :: r := by
    cases ds with
    | nil => exact absurd rfl hne
    | cons d r => exact ⟨d, r, rfl⟩
  have hd : d < 10 := hlt d (by simp)
  have hws : isStrWhiteSpaceChar (Nat.digitChar d) = false := isStrWhiteSpaceChar_digitChar d hd
  have hhex := stripHexPrefix_digits (d :: r) hlt
  have htake := takeDigits_map_digitChar (d :: r) hlt
  simp only [List.map_cons] at hhex htake
  cases neg with
  | false =>
    have hdw : List.dropWhile isStrWhiteSpaceChar (Nat.digitChar d :: r.map Nat.digitChar) =
        Nat.digitChar d :: r.map Nat.digitChar := by
      rw [List.dropWhile_cons_of_neg (by simp [hws])]
    simp only [parseInt, String.toList, Bool.false_eq_true, if_false, List.nil_append,
      List.map_cons, hdw, stripSign_digit d hd, hhex, htake]
    simp
  | true =>
    have hminus : isStrWhiteSpaceChar '-' = false := by decide
    have hs : stripSign ('-' :: Nat.digitChar d :: r.map Nat.digitChar) =
        (true, Nat.digitChar d :: r.map Nat.digitChar) := rfl
    have hdw : List.dropWhile isStrWhiteSpaceChar
        ('-' :: Nat.digitChar d :: r.map Nat.digitChar) =
        '-' :: Nat.digitChar d :: r.map Nat.digitChar := by
      rw [List.dropWhile_cons_of_neg (by simp [hminus])]
    simp only [parseInt, String.toList, if_true, List.singleton_append, List.map_cons,
      hdw, hs, hhex, htake]
    simp

theorem toDigits_eq_map (n : Nat) :
    Nat.toDigits 10 n = (decimalDigits (n + 1) n).map Nat.digitChar :=
  toDigitsCore_eq_map (n + 1) n (Nat.lt_succ_self n)

/-- The text of a natural number is read by `parseInt` as its Number value. -/
theorem parseInt_natToString (n : Nat) :
    parseInt (toString n) = (toNumber n).withSign false := by
  have h := parseInt_digits false (decimalDigits (n + 1) n) (decimalDigits_ne_nil n n)
    (decimalDigits_lt (n + 1) n)
  simp only [Bool.false_eq_true, if_false, List.nil_append, ← toDigits_eq_map,
    digitsValue_decimalDigits (n + 1) n (Nat.lt_succ_self n)] at h
  exact h

/-- The text of a negative integer is read by `parseInt` as the opposite of a Number value. -/
theorem parseInt_negSuccToString (n : Nat) :
    parseInt (toString (Int.negSucc n)) = (toNumber (n + 1)).withSign true := by
  have h := parseInt_digits true (decimalDigits (n + 1 + 1) (n + 1))
    (decimalDigits_ne_nil (n + 1) (n + 1)) (decimalDigits_lt (n + 1 + 1) (n + 1))
  simp only [if_true, ← toDigits_eq_map,
    digitsValue_decimalDigits (n + 1 + 1) (n + 1) (Nat.lt_succ_self (n + 1))] at h
  have e : (toString (Int.negSucc n)) = String.mk (['-'] ++ Nat.toDigits 10 (n + 1)) := by
    show "-" ++ Nat.repr (n + 1) = _
    rfl
  rw [e, h]

theorem toNumber_of_le (n : Nat) (h : n ≤ 2 ^ 53) : toNumber n = .int n := by
  unfold toNumber
  exact if_pos h

/-- Up to `2 ^ 53` in absolute value, the text of an integer is read back by `parseInt`. -/
theorem parseInt_intToString (q : Int) (h : q.natAbs ≤ 2 ^ 53) :
    parseInt (toString q) = .int q := by
  cases q with
  | ofNat n =>
    have hn : n ≤ 2 ^ 53 := by simpa using h
    show parseInt (toString n) = _
    rw [parseInt_natToString, toNumber_of_le n hn]
    rfl
  | negSucc n =>
    have hn : n + 1 ≤ 2 ^ 53 := by simpa [Int.natAbs] using h
    rw [parseInt_negSuccToString, toNumber_of_le (n + 1) hn]
    rfl

/-- The halvings `bitLength` allows itself are enough: `n` has exactly `bitLength n` binary
digits. -/
theorem bitLengthAux_spec (fuel : Nat) : ∀ n, n ≤ fuel → 0 < n →
    2 ^ (bitLengthAux fuel n - 1) ≤ n ∧ n < 2 ^ bitLengthAux fuel n := by
  induction fuel with
  | zero => intro n h h0; omega
  | succ f ih =>
    intro n h h0
    have hn : n ≠ 0 := by omega
    simp only [bitLengthAux, hn, if_false, Nat.add_sub_cancel]
    by_cases h1 : n / 2 = 0
    · have hone : n = 1 := by omega
      subst hone
      cases f <;> simp [bitLengthAux]
    · obtain ⟨hlo, hhi⟩ := ih (n / 2) (by omega) (by omega)
      have hpos : 0 < bitLengthAux f (n / 2) := by
        cases f with
        | zero => omega
        | succ g => simp [bitLengthAux, h1]
      have hsplit : bitLengthAux f (n / 2) = (bitLengthAux f (n / 2) - 1) + 1 := by omega
      constructor
      · rw [hsplit, pow_succ]
        omega
      · rw [pow_succ]
        omega

theorem bitLength_spec (n : Nat) (h0 : 0 < n) :
    2 ^ (bitLength n - 1) ≤ n ∧ n < 2 ^ bitLength n :=
  bitLengthAux_spec n n (Nat.le_refl n) h0

/-! ## The loaders write their container once -/

theorem nongov_loadSupplies_eq (toUpperCase : String → String)
    (largeNumberToString : Int → String) (supplies : List Supply) :
    Nongov.loadSupplies toUpperCase largeNumberToString supplies =
      [ Effect.fetch (Request.get "/api/available-supplies"),
        Effect.setInnerHTML "suppliesList"
          (if supplies = [] then "<p>No supplies available at this time.</p>"
           else joinEmpty (supplies.map (Nongov.supplyCard toUpperCase largeNumberToString))) ] := by
  cases supplies <;> simp [Nongov.loadSupplies]

theorem nongov_loadStations_eq (stations : List String) :
    Nongov.loadStations stations =
      [ Effect.fetch (Request.get "/api/list-stations"),
        Effect.setInnerHTML "stationsList"
          (if stations = [] then "<p>No help stations registered yet.</p>"
           else joinEmpty (stations.map Nongov.stationCard)) ] := by
  cases stations <;> simp [Nongov.loadStations]

theorem gov_loadInventory_eq (toUpperCase : String → String)
    (largeNumberToString : Int → String) (supplies : List Supply) :
    Gov.loadInventory toUpperCase largeNumberToString supplies =
      [ Effect.fetch (Request.get "/api/inventory"),
        Effect.setInnerHTML "inventoryList"
          (if supplies = [] then "<p>No supplies in inventory.</p>"
           else joinEmpty (supplies.map (Gov.inventoryCard toUpperCase largeNumberToString))) ] := by
  cases supplies <;> simp [Gov.loadInventory]

theorem gov_loadReports_eq (toUpperCase : String → String) (reports : List Report) :
    Gov.loadReports toUpperCase reports =
      [ Effect.fetch (Request.get "/api/reports"),
        Effect.setInnerHTML "reportsList"
          (if reports = [] then "<p>No reports filed yet.</p>"
           else joinEmpty (Gov.reportCards toUpperCase reports)) ] := by
  cases reports <;> simp [Gov.loadReports]

theorem gov_loadStations_eq (stations : List String) :
    Gov.loadStations stations =
      [ Effect.fetch (Request.get "/api/stations"),
        Effect.setInnerHTML "stationsList"
          (if stations = [] then "<p>No aid centres registered.</p>"
           else joinEmpty (stations.map Gov.stationCard)) ] := by
  cases stations <;> simp [Gov.loadStations]

/-! ## Request Aid -/

theorem requestSupply_of_int (toUpperCase : String → String)
    (largeNumberToString : Int → String) (supply : String) (maxQty q : Int)
    (qtyValue : String) (response : Response) (supplies : List Supply)
    (hq : parseInt qtyValue = .int q) :
    Nongov.requestSupply toUpperCase largeNumberToString supply maxQty qtyValue response
        supplies =
      if q ≤ 0 ∨ q > maxQty then
        [ Effect.alert ("❌ Please enter a valid quantity (1-" ++
            numberToString largeNumberToString maxQty ++ ").") ]
      else
        Effect.fetch (Request.postJson "/api/request-aid"
            [("supply", .str supply), ("quantity", .num (.int q))]) ::
          (if response.ok then
            Effect.alert ("✅ " ++ response.message) ::
              Nongov.loadSupplies toUpperCase largeNumberToString supplies
          else
            [ Effect.alert ("❌ " ++ response.message) ]) := by
  simp only [Nongov.requestSupply, hq, JSNumber.le, JSNumber.gt, Bool.or_eq_true,
    decide_eq_true_eq]

theorem requestSupply_of_inf (toUpperCase : String → String)
    (largeNumberToString : Int → String) (supply : String) (maxQty : Int) (negative : Bool)
    (qtyValue : String) (response : Response) (supplies : List Supply)
    (hq : parseInt qtyValue = .inf negative) :
    Nongov.requestSupply toUpperCase largeNumberToString supply maxQty qtyValue response
        supplies =
      [ Effect.alert ("❌ Please enter a valid quantity (1-" ++
          numberToString largeNumberToString maxQty ++ ").") ] := by
  cases negative <;> simp [Nongov.requestSupply, hq, JSNumber.le, JSNumber.gt]

theorem numberToString_of_le (largeNumberToString : Int → String) (n : Int)
    (h : n.natAbs ≤ 2 ^ 53) : numberToString largeNumberToString n = toString n := by
  unfold numberToString
  exact if_pos h

/-- The text `2.5` is the decimal numeral of no integer. -/
theorem not_numeral_two_point_five (q : Int) : toString q ≠ "2.5" := by
  intro h
  have hdot : '.' ∈ (toString q).toList := by rw [h]; decide
  cases q with
  | ofNat n =>
    have e : (toString (Int.ofNat n)).toList = Nat.toDigits 10 n := rfl
    rw [e, toDigits_eq_map, List.mem_map] at hdot
    obtain ⟨d, hd, hc⟩ := hdot
    have hlt := decimalDigits_lt (n + 1) n d hd
    revert hc
    interval_cases d <;> decide
  | negSucc n =>
    have e : (toString (Int.negSucc n)).toList = '-' :: Nat.toDigits 10 (n + 1) := rfl
    rw [e, toDigits_eq_map, List.mem_cons, List.mem_map] at hdot
    rcases hdot with hdot | ⟨d, hd, hc⟩
    · exact absurd hdot (by decide)
    · have hlt := decimalDigits_lt (n + 1 + 1) (n + 1) d hd
      revert hc
      interval_cases d <;> decide

/-- C1, as stated, fails: the text `2.5` is not an integer, yet with `maxQty = 5` the handler
shows no message and posts to `/api/request-aid`, with quantity 2. -/
theorem requestSupply_fraction_is_posted :
    (∀ q : Int, toString q ≠ "2.5") ∧
    Nongov.requestSupply String.toUpper toString "water" 5 "2.5"
        { ok := false, message := "no" } [] =
      [ Effect.fetch
            { method := "POST", url := "/api/request-aid",
              headers := [("Content-Type", "application/json")],
              body := some [("supply", .str "water"), ("quantity", .num (.int 2))] },
        Effect.alert "❌ no" ] :=
  ⟨not_numeral_two_point_five, by decide⟩

/-- C1, amended: whenever the number `parseInt` reads from the text of the quantity input is an
integer `q` with `q ≤ 0` or `q > maxQty`, or an infinity, the handler only shows the
valid-quantity message, which names `maxQty` as a template literal writes it (its decimal
numeral when `maxQty` is at most `2 ^ 53` in absolute value): the trace is that single alert,
so no request is issued. -/
theorem requestSupply_rejects_out_of_range (toUpperCase : String → String)
    (largeNumberToString : Int → String) (supply : String)
    (maxQty : Int) (qtyValue : String) (response : Response) (supplies : List Supply)
    (hread : (∃ q : Int, parseInt qtyValue = .int q ∧ (q ≤ 0 ∨ q > maxQty)) ∨
      (∃ negative : Bool, parseInt qtyValue = .inf negative)) :
    Nongov.requestSupply toUpperCase largeNumberToString supply maxQty qtyValue response
        supplies =
      [ Effect.alert ("❌ Please enter a valid quantity (1-" ++
          numberToString largeNumberToString maxQty ++ ").") ] ∧
    (maxQty.natAbs ≤ 2 ^ 53 →
      Nongov.requestSupply toUpperCase largeNumberToString supply maxQty qtyValue response
          supplies =
        [ Effect.alert ("❌ Please enter a valid quantity (1-" ++ toString maxQty ++ ").") ]) ∧
    ∀ e ∈ Nongov.requestSupply toUpperCase largeNumberToString supply maxQty qtyValue response
        supplies, ∀ req : Request, e ≠ Effect.fetch req := by
  have htrace : Nongov.requestSupply toUpperCase largeNumberToString supply maxQty qtyValue
      response supplies =
      [ Effect.alert ("❌ Please enter a valid quantity (1-" ++
          numberToString largeNumberToString maxQty ++ ").") ] := by
    rcases hread with ⟨q, hq, hrange⟩ | ⟨negative, hq⟩
    · rw [requestSupply_of_int toUpperCase largeNumberToString supply maxQty q qtyValue
        response supplies hq, if_pos hrange]
    · exact requestSupply_of_inf toUpperCase largeNumberToString supply maxQty negative
        qtyValue response supplies hq
  refine ⟨htrace, ?_, ?_⟩
  · intro hsafe
    rw [htrace, numberToString_of_le largeNumberToString maxQty hsafe]
  · intro e he req
    rw [htrace] at he
    simp only [List.mem_singleton] at he
    subst he
    exact fun h => by cases h

theorem requestSupply_rejects_out_of_range_witness :
    Nongov.requestSupply String.toUpper toString "water" 5 "6.9"
        { ok := true, message := "m" } [] =
      [ Effect.alert "❌ Please enter a valid quantity (1-5)." ] :=
  (requestSupply_rejects_out_of_range String.toUpper toString "water" 5 "6.9"
    { ok := true, message := "m" } []
    (Or.inl ⟨6, by decide, by decide⟩)).2.1 (by decide)

/-- An empty quantity input is read as `NaN`, which passes both comparisons of the guard: the
request is posted with a `NaN` quantity. -/
theorem requestSupply_empty_text_is_posted :
    Nongov.requestSupply String.toUpper toString "water" 5 "" { ok := false, message := "no" }
        [] =
      [ Effect.fetch (Request.postJson "/api/request-aid"
          [("supply", .str "water"), ("quantity", .num .nan)]),
        Effect.alert "❌ no" ] := by
  decide

set_option exponentiation.threshold 2000 in
/-- The numeral of `2 ^ 53 + 1` is read as the double `2 ^ 53`. -/
theorem parseInt_rounds_to_even :
    parseInt "9007199254740993" = .int 9007199254740992 := by
  decide

/-- C2, as stated, fails: the integer `2 ^ 53 + 1`, entered as its numeral, is greater than
`maxQty = 2 ^ 53`, yet `parseInt` reads the numeral as the double `2 ^ 53`, the guard lets it
pass and the request is posted, with quantity `2 ^ 53`. -/
theorem requestSupply_posts_beyond_exact_range :
    toString (9007199254740993 : Int) = "9007199254740993" ∧
    (9007199254740993 : Int) > 9007199254740992 ∧
    Nongov.requestSupply String.toUpper toString "water" 9007199254740992
        (toString (9007199254740993 : Int)) { ok := false, message := "no" } [] =
      [ Effect.fetch
          { method := "POST", url := "/api/request-aid",
            headers := [("Content-Type", "application/json")],
            body := some [("supply", .str "water"),
              ("quantity", .num (.int 9007199254740992))] },
        Effect.alert "❌ no" ] := by
  have htext : toString (9007199254740993 : Int) = "9007199254740993" := by decide
  have hread := parseInt_rounds_to_even
  refine ⟨htext, by decide, ?_⟩
  rw [htext, requestSupply_of_int String.toUpper toString "water" 9007199254740992
    9007199254740992 "9007199254740993" { ok := false, message := "no" } [] hread,
    if_neg (by decide)]
  rfl

/-- C2, amended: for every integer `maxQty` and every integer `q` of absolute value at most
`2 ^ 53`, entered as its decimal numeral, the POSTs to `/api/request-aid` in the trace of
`requestSupply` are exactly one request with body `{supply, quantity: q}` if and only if
`1 ≤ q ≤ maxQty`, and the trace holds no request at all if and only if `q ≤ 0` or
`q > maxQty`. -/
theorem requestSupply_posts_iff_in_range (toUpperCase : String → String)
    (largeNumberToString : Int → String) (supply : String)
    (maxQty q : Int) (response : Response) (supplies : List Supply)
    (hexact : q.natAbs ≤ 2 ^ 53) :
    ((Nongov.requestSupply toUpperCase largeNumberToString supply maxQty (toString q) response
          supplies).filter
        (fun e => match e with
          | Effect.fetch req => decide (req.method = "POST" ∧ req.url = "/api/request-aid")
          | _ => false) =
      [ Effect.fetch
            { method := "POST", url := "/api/request-aid",
              headers := [("Content-Type", "application/json")],
              body := some [("supply", .str supply), ("quantity", .num (.int q))] } ] ↔
        (1 ≤ q ∧ q ≤ maxQty)) ∧
    ((∀ e ∈ Nongov.requestSupply toUpperCase largeNumberToString supply maxQty (toString q)
        response supplies, ∀ req : Request, e ≠ Effect.fetch req) ↔ (q ≤ 0 ∨ q > maxQty)) := by
  rw [requestSupply_of_int toUpperCase largeNumberToString supply maxQty q (toString q)
    response supplies (parseInt_intToString q hexact)]
  by_cases hrange : q ≤ 0 ∨ q > maxQty
  · rw [if_pos hrange]
    have hno : ¬ (1 ≤ q ∧ q ≤ maxQty) := by omega
    simp [hrange, hno]
  · rw [if_neg hrange]
    have hyes : 1 ≤ q ∧ q ≤ maxQty := by omega
    constructor
    · cases hok : response.ok <;>
        simp [hyes, Request.postJson, Request.get, nongov_loadSupplies_eq]
    · simp [hrange]

/-- With 5 units available: 0 and 6 are rejected without a request, 3 is posted as 3. -/
theorem requestSupply_posts_iff_in_range_witness :
    (Nongov.requestSupply String.toUpper toString "water" 5 "3" { ok := true, message := "m" }
        []).filter
        (fun e => match e with
          | Effect.fetch req => decide (req.method = "POST" ∧ req.url = "/api/request-aid")
          | _ => false) =
      [ Effect.fetch
            { method := "POST", url := "/api/request-aid",
              headers := [("Content-Type", "application/json")],
              body := some [("supply", .str "water"), ("quantity", .num (.int 3))] } ] ∧
    (∀ e ∈ Nongov.requestSupply String.toUpper toString "water" 5 "0"
        { ok := true, message := "m" } [], ∀ req : Request, e ≠ Effect.fetch req) ∧
    (∀ e ∈ Nongov.requestSupply String.toUpper toString "water" 5 "6"
        { ok := true, message := "m" } [], ∀ req : Request, e ≠ Effect.fetch req) :=
  ⟨(requestSupply_posts_iff_in_range String.toUpper toString "water" 5 3
      { ok := true, message := "m" } [] (by decide)).1.mpr (by decide),
    (requestSupply_posts_iff_in_range String.toUpper toString "water" 5 0
      { ok := true, message := "m" } [] (by decide)).2.mpr (by decide),
    (requestSupply_posts_iff_in_range String.toUpper toString "water" 5 6
      { ok := true, message := "m" } [] (by decide)).2.mpr (by decide)⟩

/-! ## Failed and successful writes -/

/-- C3, as stated, fails for Send Chat Message: with a non-ok response the handler has emptied
the message input it read (line 181, before the request of line 184). -/
theorem sendMentalMessage_clears_input_on_failure :
    ({ ok := false, message := "down" } : Response).ok = false ∧
    (Nongov.sendMentalMessage "hello" "" "<div class=\"chat-message user\">hello</div>"
      { ok := false, message := "down" }).any (Effect.clears "messageInput") = true := by
  decide

/-- C3, amended: for Add Supply, Delete Report, Add Station, Delete Station, File Report,
Request Aid and Configure AI, a non-ok response leaves every form, input and container untouched
and starts no loader (the trace has no reset, no value or innerHTML assignment and no GET).
Send Chat Message starts no loader either, but with a non-ok response as with any other,
whenever the trimmed text is not empty, it has emptied the message input before its request
was issued. -/
theorem failed_write_keeps_form_and_list (toUpperCase encodeURIComponent : String → String)
    (largeNumberToString : Int → String)
    (response : Response) (hfail : response.ok = false) :
    (∀ supplyType supplyQty supplies, keepsFormAndList
      (Gov.addSupplyFormSubmit toUpperCase largeNumberToString supplyType supplyQty response
        supplies) = true) ∧
    (∀ reportId confirmed reports, keepsFormAndList
      (Gov.deleteReport toUpperCase reportId confirmed response reports) = true) ∧
    (∀ stationName stations, keepsFormAndList
      (Gov.addStationFormSubmit stationName response stations) = true) ∧
    (∀ name confirmed stations, keepsFormAndList
      (Gov.deleteStation encodeURIComponent name confirmed response stations) = true) ∧
    (∀ disasterType details address city country, keepsFormAndList
      (Nongov.reportFormSubmit disasterType details address city country response) = true) ∧
    (∀ supply maxQty qtyValue supplies, keepsFormAndList
      (Nongov.requestSupply toUpperCase largeNumberToString supply maxQty qtyValue response
        supplies) = true) ∧
    (∀ apiKey status, keepsFormAndList
      (Nongov.configFormSubmit apiKey response status) = true) ∧
    (∀ inputValue transcript readBack,
      (Nongov.sendMentalMessage inputValue transcript readBack response).all
        (fun e => !e.isGet) = true) ∧
    (∀ inputValue transcript readBack, trim inputValue ≠ "" →
      Effect.setValue "messageInput" "" ∈
        Nongov.sendMentalMessage inputValue transcript readBack response) ∧
    (∀ inputValue transcript readBack, trim inputValue ≠ "" →
      ∃ before after : List Effect,
        Nongov.sendMentalMessage inputValue transcript readBack response =
          before ++ Effect.fetch (Nongov.messageRequest (trim inputValue)) :: after ∧
        Effect.setValue "messageInput" "" ∈ before ∧
        (∀ e ∈ before, ∀ req : Request, e ≠ Effect.fetch req)) := by
  refine ⟨?_, ?_, ?_, ?_, ?_, ?_, ?_, ?_, ?_, ?_⟩
  · intro supplyType supplyQty supplies
    simp [Gov.addSupplyFormSubmit, hfail, keepsFormAndList, Effect.writesDocument, Effect.isGet,
      Request.postJson]
  · intro reportId confirmed reports
    cases confirmed <;>
      simp [Gov.deleteReport, hfail, keepsFormAndList, Effect.writesDocument, Effect.isGet,
        Request.post]
  · intro stationName stations
    simp [Gov.addStationFormSubmit, hfail, keepsFormAndList, Effect.writesDocument,
      Effect.isGet, Request.postJson]
  · intro name confirmed stations
    cases confirmed <;>
      simp [Gov.deleteStation, hfail, keepsFormAndList, Effect.writesDocument, Effect.isGet,
        Request.post]
  · intro disasterType details address city country
    simp [Nongov.reportFormSubmit, hfail, keepsFormAndList, Effect.writesDocument,
      Effect.isGet, Request.postJson]
  · intro supply maxQty qtyValue supplies
    simp only [Nongov.requestSupply, hfail]
    split <;>
      simp [keepsFormAndList, Effect.writesDocument, Effect.isGet, Request.postJson]
  · intro apiKey status
    simp [Nongov.configFormSubmit, hfail, keepsFormAndList, Effect.writesDocument,
      Effect.isGet, Request.postJson]
  · intro inputValue transcript readBack
    simp only [Nongov.sendMentalMessage]
    split <;> simp [Effect.isGet, Nongov.messageRequest, Request.postJson]
  · intro inputValue transcript readBack hne
    simp [Nongov.sendMentalMessage, hne]
  · intro inputValue transcript readBack hne
    refine ⟨[ Effect.setInnerHTML "chatBox" (transcript ++ Nongov.userEntry (trim inputValue)),
      Effect.setValue "messageInput" "", Effect.scrollToBottom "chatBox" ],
      [ Effect.setInnerHTML "chatBox" (readBack ++ Nongov.botEntry response.message),
        Effect.scrollToBottom "chatBox" ], ?_, by simp, ?_⟩
    · simp [Nongov.sendMentalMessage, hne]
    · intro e he req
      simp only [List.mem_cons, List.mem_singleton, List.not_mem_nil, or_false] at he
      rcases he with rfl | rfl | rfl <;> exact fun h => by cases h

theorem failed_write_keeps_form_and_list_witness :
    ({ ok := false, message := "taken" } : Response).ok = false ∧
    keepsFormAndList (Gov.addStationFormSubmit "North Hall" { ok := false, message := "taken" }
      ["North Hall"]) = true :=
  ⟨rfl, (failed_write_keeps_form_and_list String.toUpper id toString
    { ok := false, message := "taken" } rfl).2.2.1 "North Hall" ["North Hall"]⟩

/-- C4, as stated, fails for File Report: after an ok response its handler resets the form and
stops; the trace holds no GET, so no list is reloaded. -/
theorem reportFormSubmit_reloads_nothing :
    Nongov.reportFormSubmit "flood" "river rose" "1 Quay" "Town" "Land"
        { ok := true, message := "" } =
      [ Effect.preventDefault,
        Effect.fetch (Request.postJson "/api/file-report"
          [("disaster_type", .str "flood"), ("details", .str "river rose"),
            ("address", .str "1 Quay"), ("city", .str "Town"), ("country", .str "Land")]),
        Effect.alert "✅ Report filed successfully!",
        Effect.reset "reportForm" ] ∧
    (Nongov.reportFormSubmit "flood" "river rose" "1 Quay" "Town" "Land"
        { ok := true, message := "" }).filter Effect.isGet = [] := by
  decide

/-- C4, amended: after an ok response, Add Supply resets `addSupplyForm` and runs
`loadInventory` once, Add Station resets `addStationForm` and runs `loadStations` once, and
File Report resets `reportForm` and runs no loader. -/
theorem successful_submit_resets_and_reloads (toUpperCase : String → String)
    (largeNumberToString : Int → String)
    (response : Response) (hok : response.ok = true) :
    (∀ supplyType supplyQty supplies,
      Gov.addSupplyFormSubmit toUpperCase largeNumberToString supplyType supplyQty response
          supplies =
        [ Effect.preventDefault,
          Effect.fetch (Request.postJson "/api/add-supplies"
            [("supply", .str supplyType), ("quantity", .str supplyQty)]),
          Effect.alert "✅ Supplies added successfully!",
          Effect.reset "addSupplyForm" ] ++
          Gov.loadInventory toUpperCase largeNumberToString supplies ∧
      (Gov.addSupplyFormSubmit toUpperCase largeNumberToString supplyType supplyQty response
        supplies).filter Effect.isReset = [ Effect.reset "addSupplyForm" ] ∧
      (Gov.addSupplyFormSubmit toUpperCase largeNumberToString supplyType supplyQty response
        supplies).filter Effect.isGet = [ Effect.fetch (Request.get "/api/inventory") ]) ∧
    (∀ stationName stations,
      Gov.addStationFormSubmit stationName response stations =
        [ Effect.preventDefault,
          Effect.fetch (Request.postJson "/api/add-station" [("name", .str stationName)]),
          Effect.alert "✅ Aid centre added successfully!",
          Effect.reset "addStationForm" ] ++ Gov.loadStations stations ∧
      (Gov.addStationFormSubmit stationName response stations).filter
        Effect.isReset = [ Effect.reset "addStationForm" ] ∧
      (Gov.addStationFormSubmit stationName response stations).filter
        Effect.isGet = [ Effect.fetch (Request.get "/api/stations") ]) ∧
    (∀ disasterType details address city country,
      (Nongov.reportFormSubmit disasterType details address city country response).filter
        Effect.isReset = [ Effect.reset "reportForm" ] ∧
      (Nongov.reportFormSubmit disasterType details address city country response).filter
        Effect.isGet = []) := by
  refine ⟨?_, ?_, ?_⟩
  · intro supplyType supplyQty supplies
    simp [Gov.addSupplyFormSubmit, hok, gov_loadInventory_eq, Effect.isReset, Effect.isGet,
      Request.postJson, Request.get]
  · intro stationName stations
    simp [Gov.addStationFormSubmit, hok, gov_loadStations_eq, Effect.isReset, Effect.isGet,
      Request.postJson, Request.get]
  · intro disasterType details address city country
    simp [Nongov.reportFormSubmit, hok, Effect.isReset, Effect.isGet, Request.postJson]

theorem successful_submit_resets_and_reloads_witness :
    ({ ok := true, message := "" } : Response).ok = true ∧
    (Gov.addSupplyFormSubmit String.toUpper toString "water" "12" { ok := true, message := "" }
      []).filter Effect.isGet = [ Effect.fetch (Request.get "/api/inventory") ] :=
  ⟨rfl, ((successful_submit_resets_and_reloads String.toUpper toString
    { ok := true, message := "" } rfl).1 "water" "12" []).2.2⟩

/-! ## The mental-health panel -/

theorem mentalHealth_markups_differ :
    Nongov.unavailableHtml ≠ Nongov.configHtml ∧ Nongov.unavailableHtml ≠ Nongov.chatHtml ∧
      Nongov.configHtml ≠ Nongov.chatHtml := by
  decide

/-- C5: `loadMentalHealth` reads the status and then assigns `mentalContent` once: the
unavailable notice `notice` (no form, no input, no chat box, and no listener is installed) when
`available` is false, whatever `configured` is; the key-entry form `form` when `available` is
true and `configured` false; the chat transcript and input `chat` when both are true. The
three markups differ, and for every status exactly one of them is assigned. -/
theorem loadMentalHealth_selects_view :
    ∃ notice form chat : String,
      notice = "<p>Mental health support is not available at this time.</p>" ∧
      form =
        "\n" ++
        "            <div class=\"mental-config\">\n" ++
        "                <h4>🔧 Configure Mental Health AI</h4>\n" ++
        "                <p>To use mental health support, please provide your OpenAI API key:</p>\n" ++
        "                <form id=\"configForm\" style=\"margin-top: 15px;\">\n" ++
        "                    <div class=\"form-group\">\n" ++
        "                        <label for=\"apiKey\">OpenAI API Key:</label>\n" ++
        "                        <input type=\"password\" id=\"apiKey\" placeholder=\"sk-...\" required>\n" ++
        "                    </div>\n" ++
        "                    <button type=\"submit\" class=\"btn btn-primary\">Configure AI</button>\n" ++
        "                </form>\n" ++
        "            </div>\n" ++
        "        " ∧
      chat =
        "\n" ++
        "            <div class=\"chat-container\" id=\"chatBox\"></div>\n" ++
        "            <div class=\"chat-input-group\">\n" ++
        "                <input type=\"text\" id=\"messageInput\" placeholder=\"Share how you're feeling...\">\n" ++
        "                <button class=\"btn btn-primary\" onclick=\"sendMentalMessage()\">Send</button>\n" ++
        "            </div>\n" ++
        "        " ∧
      (∀ configured,
        Nongov.loadMentalHealth { available := false, configured := configured } =
          [ Effect.fetch
              { method := "GET", url := "/api/mental-health/check", headers := [],
                body := none },
            Effect.setInnerHTML "mentalContent" notice ]) ∧
      Nongov.loadMentalHealth { available := true, configured := false } =
        [ Effect.fetch
            { method := "GET", url := "/api/mental-health/check", headers := [],
              body := none },
          Effect.setInnerHTML "mentalContent" form,
          Effect.addSubmitListener "configForm" ] ∧
      Nongov.loadMentalHealth { available := true, configured := true } =
        [ Effect.fetch
            { method := "GET", url := "/api/mental-health/check", headers := [],
              body := none },
          Effect.setInnerHTML "mentalContent" chat,
          Effect.defineSendMentalMessage ] ∧
      (notice ≠ form ∧ notice ≠ chat ∧ form ≠ chat) ∧
      (¬ "<form".toList <:+: notice.toList ∧ ¬ "<input".toList <:+: notice.toList ∧
        ¬ "chatBox".toList <:+: notice.toList) ∧
      (∀ status : MentalHealthStatus,
        ([notice, form, chat].filter (fun markup =>
          decide (Effect.setInnerHTML "mentalContent" markup ∈
            Nongov.loadMentalHealth status))).length = 1) := by
  refine ⟨Nongov.unavailableHtml, Nongov.configHtml, Nongov.chatHtml, rfl, rfl, rfl, ?_, rfl,
    rfl, mentalHealth_markups_differ, by decide, ?_⟩
  · intro configured
    cases configured <;> rfl
  · obtain ⟨h1, h2, h3⟩ := mentalHealth_markups_differ
    intro status
    obtain ⟨available, configured⟩ := status
    cases available <;> cases configured <;>
      simp [Nongov.loadMentalHealth, List.filter, h1, h2, h3, h1.symm, h2.symm, h3.symm]

/-- C6, as stated, fails: the key is accepted (ok response), the status read that follows
still reports `configured = false`, and the panel shows the key-entry form again, not the
chat. -/
theorem configFormSubmit_ok_may_stay_unconfigured :
    innerHTMLAfter "mentalContent" Nongov.configHtml
      (Nongov.configFormSubmit "sk-test" { ok := true, message := "" }
        { available := true, configured := false }) = View.needsConfiguration.html ∧
    View.needsConfiguration.html ≠ View.chatActive.html :=
  ⟨rfl, by decide⟩

/-- C6, amended: in the NeedsConfiguration view, for every submitted key, an ok response makes
the handler run `loadMentalHealth` again, so the panel shows the view its fresh status read
selects, which is ChatActive when that read reports `available` and `configured`; a non-ok
response leaves the key-entry form in place and the handler only alerts the server's message. -/
theorem configFormSubmit_transitions (apiKey : String) (response : Response)
    (status : MentalHealthStatus) :
    (response.ok = true →
      Nongov.configFormSubmit apiKey response status =
        [ Effect.preventDefault,
          Effect.fetch (Request.postJson "/api/mental-health/configure"
            [("api_key", .str apiKey)]),
          Effect.alert "✅ AI configured successfully!" ] ++ Nongov.loadMentalHealth status ∧
      innerHTMLAfter "mentalContent" View.needsConfiguration.html
          (Nongov.configFormSubmit apiKey response status) =
        innerHTMLAfter "mentalContent" View.needsConfiguration.html
          (Nongov.loadMentalHealth status) ∧
      (status.available = true → status.configured = true →
        innerHTMLAfter "mentalContent" View.needsConfiguration.html
          (Nongov.configFormSubmit apiKey response status) = View.chatActive.html)) ∧
    (response.ok = false →
      Nongov.configFormSubmit apiKey response status =
        [ Effect.preventDefault,
          Effect.fetch (Request.postJson "/api/mental-health/configure"
            [("api_key", .str apiKey)]),
          Effect.alert ("❌ " ++ response.message) ] ∧
      innerHTMLAfter "mentalContent" View.needsConfiguration.html
          (Nongov.configFormSubmit apiKey response status) = View.needsConfiguration.html) := by
  constructor
  · intro hok
    refine ⟨by simp [Nongov.configFormSubmit, hok], ?_, ?_⟩
    · simp [Nongov.configFormSubmit, hok, innerHTMLAfter]
    · intro ha hc
      simp [Nongov.configFormSubmit, Nongov.loadMentalHealth, hok, ha, hc, innerHTMLAfter,
        View.html]
  · intro hfail
    refine ⟨by simp [Nongov.configFormSubmit, hfail], ?_⟩
    simp [Nongov.configFormSubmit, hfail, innerHTMLAfter]

theorem configFormSubmit_transitions_witness :
    innerHTMLAfter "mentalContent" View.needsConfiguration.html
        (Nongov.configFormSubmit "sk-test" { ok := true, message := "" }
          { available := true, configured := true }) = View.chatActive.html ∧
    innerHTMLAfter "mentalContent" View.needsConfiguration.html
        (Nongov.configFormSubmit "sk-test" { ok := false, message := "bad key" }
          { available := true, configured := true }) = View.needsConfiguration.html :=
  ⟨((configFormSubmit_transitions "sk-test" { ok := true, message := "" }
      { available := true, configured := true }).1 rfl).2.2 rfl rfl,
    ((configFormSubmit_transitions "sk-test" { ok := false, message := "bad key" }
      { available := true, configured := true }).2 rfl).2⟩

/-! ## List loaders and report deletion -/

/-- C7: `loadReports` assigns `reportsList` the concatenation of one card per report, the card
at 0-based position `i` being the template filled with the `i`-th report and the button script
`deleteReport(i + 1)`; `deleteReport(id)` asks for confirmation, then issues exactly one POST,
to `/api/delete-report/id`, when the user confirms, and nothing at all when the user
cancels. -/
theorem reports_deleted_by_position (toUpperCase : String → String) (reports : List Report) :
    ∃ card : Nat → Report → String,
      (∀ (index : Nat) (report : Report), card index report =
        "\n" ++
        "        <div class=\"report-card\">\n" ++
        "            <div>\n" ++
        "                <h4>📋 " ++ toUpperCase report.disaster_type ++ "</h4>\n" ++
        "                <p><strong>Reporter:</strong> " ++ report.name ++ "</p>\n" ++
        "                <p><strong>Time:</strong> " ++ report.timestamp ++ "</p>\n" ++
        "                <p><strong>Details:</strong> " ++ report.details ++ "</p>\n" ++
        "            </div>\n" ++
        "            <div class=\"card-actions\">\n" ++
        "                <button class=\"btn btn-danger btn-small\" onclick=\"deleteReport(" ++
          toString (index + 1) ++ ")\">Delete</button>\n" ++
        "            </div>\n" ++
        "        </div>\n" ++
        "    ") ∧
      Gov.loadReports toUpperCase reports =
        [ Effect.fetch
            { method := "GET", url := "/api/reports", headers := [], body := none },
          Effect.setInnerHTML "reportsList"
            (if reports = [] then "<p>No reports filed yet.</p>"
             else String.join (reports.mapIdx card)) ] ∧
      (reports.mapIdx card).length = reports.length ∧
      (∀ i : Nat, (reports.mapIdx card)[i]? = (reports[i]?).map (card i)) ∧
      (∀ (reportId : Nat) (response : Response) (reloaded : List Report),
        Gov.deleteReport toUpperCase reportId true response reloaded =
          Effect.confirm "Are you sure you want to delete this report?" ::
          Effect.fetch
            { method := "POST", url := "/api/delete-report/" ++ toString reportId,
              headers := [], body := none } ::
          (if response.ok then
            Effect.alert "✅ Report deleted." :: Gov.loadReports toUpperCase reloaded
          else
            [ Effect.alert "❌ Failed to delete report." ]) ∧
        ((Gov.deleteReport toUpperCase reportId true response reloaded).filter
          (fun e => match e with
            | Effect.fetch req => decide (req.method = "POST")
            | _ => false)).length = 1 ∧
        Gov.deleteReport toUpperCase reportId false response reloaded =
          [ Effect.confirm "Are you sure you want to delete this report?" ]) := by
  refine ⟨fun index report => Gov.reportCard toUpperCase report index, fun _ _ => rfl, ?_,
    by simp, fun i => by simp [List.getElem?_mapIdx], ?_⟩
  · rw [gov_loadReports_eq]
    rfl
  · intro reportId response reloaded
    refine ⟨by cases hok : response.ok <;> simp [Gov.deleteReport, hok, Request.post], ?_,
      by simp [Gov.deleteReport]⟩
    cases hok : response.ok <;>
      simp [Gov.deleteReport, hok, gov_loadReports_eq, Request.post, Request.get]

/-- Confirming the deletion of report 2 posts to `/api/delete-report/2`; the card at position
2 of a list of three is the template filled with the second report and `deleteReport(1 + 1)`. -/
theorem reports_deleted_by_position_witness :
    Gov.deleteReport asciiToUpperCase 2 true { ok := false, message := "" } [] =
      [ Effect.confirm "Are you sure you want to delete this report?",
        Effect.fetch
          { method := "POST", url := "/api/delete-report/2", headers := [], body := none },
        Effect.alert "❌ Failed to delete report." ] ∧
    ∃ card : Nat → Report → String,
      ([ ({ disaster_type := "flood", name := "A", timestamp := "t1", details := "d1" } : Report),
         { disaster_type := "fire", name := "B", timestamp := "t2", details := "d2" },
         { disaster_type := "storm", name := "C", timestamp := "t3", details := "d3" }
       ].mapIdx card)[1]? =
        some (card 1
          { disaster_type := "fire", name := "B", timestamp := "t2", details := "d2" }) :=
  (reports_deleted_by_position asciiToUpperCase
    [ { disaster_type := "flood", name := "A", timestamp := "t1", details := "d1" },
      { disaster_type := "fire", name := "B", timestamp := "t2", details := "d2" },
      { disaster_type := "storm", name := "C", timestamp := "t3", details := "d3" } ]).elim
    (fun card h => ⟨(h.2.2.2.2 2 { ok := false, message := "" } []).1.trans rfl,
      card, (h.2.2.2.1 1).trans rfl⟩)

set_option maxRecDepth 100000 in
/-- The card `loadReports` builds for the second of three reports. -/
theorem reportCards_example :
    (Gov.reportCards asciiToUpperCase
      [ { disaster_type := "flood", name := "A", timestamp := "t1", details := "d1" },
        { disaster_type := "fire", name := "B", timestamp := "t2", details := "d2" },
        { disaster_type := "storm", name := "C", timestamp := "t3", details := "d3" } ])[1]? =
      some (
        "\n" ++
        "        <div class=\"report-card\">\n" ++
        "            <div>\n" ++
        "                <h4>📋 FIRE</h4>\n" ++
        "                <p><strong>Reporter:</strong> B</p>\n" ++
        "                <p><strong>Time:</strong> t2</p>\n" ++
        "                <p><strong>Details:</strong> d2</p>\n" ++
        "            </div>\n" ++
        "            <div class=\"card-actions\">\n" ++
        "                <button class=\"btn btn-danger btn-small\" onclick=\"deleteReport(2)\">Delete</button>\n" ++
        "            </div>\n" ++
        "        </div>\n" ++
        "    ") := by
  decide

/-- C8: each of the five list loaders issues its single GET and then assigns its container
once: its fixed message when the collection is empty, and otherwise the concatenation, in the
order of the collection, of one card per item, each card being the loader's template filled
with the fields of its item (and, for a report, its position). A quantity is written as a
template literal writes a number, which up to `2 ^ 53` is its decimal numeral. -/
theorem loaders_render_collection (toUpperCase : String → String)
    (largeNumberToString : Int → String) :
    (∀ supplies : List Supply, Gov.loadInventory toUpperCase largeNumberToString supplies =
      [ Effect.fetch
          { method := "GET", url := "/api/inventory", headers := [], body := none },
        Effect.setInnerHTML "inventoryList"
          (if supplies = [] then "<p>No supplies in inventory.</p>"
           else String.join (supplies.map (fun supply =>
            "\n" ++
            "        <div class=\"inventory-card\">\n" ++
            "            <div>\n" ++
            "                <h4>" ++ toUpperCase supply.name ++ "</h4>\n" ++
            "                <p>Quantity: <strong>" ++
              numberToString largeNumberToString supply.quantity ++ " " ++
              (match supply.unit with
                | none => "units"
                | some u => if u = "" then "units" else u) ++ "</strong></p>\n" ++
            "            </div>\n" ++
            "        </div>\n" ++
            "    "))) ]) ∧
    (∀ reports : List Report, Gov.loadReports toUpperCase reports =
      [ Effect.fetch
          { method := "GET", url := "/api/reports", headers := [], body := none },
        Effect.setInnerHTML "reportsList"
          (if reports = [] then "<p>No reports filed yet.</p>"
           else String.join (reports.mapIdx (fun index report =>
            "\n" ++
            "        <div class=\"report-card\">\n" ++
            "            <div>\n" ++
            "                <h4>📋 " ++ toUpperCase report.disaster_type ++ "</h4>\n" ++
            "                <p><strong>Reporter:</strong> " ++ report.name ++ "</p>\n" ++
            "                <p><strong>Time:</strong> " ++ report.timestamp ++ "</p>\n" ++
            "                <p><strong>Details:</strong> " ++ report.details ++ "</p>\n" ++
            "            </div>\n" ++
            "            <div class=\"card-actions\">\n" ++
            "                <button class=\"btn btn-danger btn-small\" onclick=\"deleteReport(" ++
              toString (index + 1) ++ ")\">Delete</button>\n" ++
            "            </div>\n" ++
            "        </div>\n" ++
            "    "))) ]) ∧
    (∀ stations : List String, Gov.loadStations stations =
      [ Effect.fetch
          { method := "GET", url := "/api/stations", headers := [], body := none },
        Effect.setInnerHTML "stationsList"
          (if stations = [] then "<p>No aid centres registered.</p>"
           else String.join (stations.map (fun station =>
            "\n" ++
            "        <div class=\"station-card\">\n" ++
            "            <div>\n" ++
            "                <h4>🏢 " ++ station ++ "</h4>\n" ++
            "                <p>Registered aid centre</p>\n" ++
            "            </div>\n" ++
            "            <div class=\"card-actions\">\n" ++
            "                <button class=\"btn btn-danger btn-small\" onclick=\"deleteStation('" ++
              station ++ "')\">Delete</button>\n" ++
            "            </div>\n" ++
            "        </div>\n" ++
            "    "))) ]) ∧
    (∀ supplies : List Supply, Nongov.loadSupplies toUpperCase largeNumberToString supplies =
      [ Effect.fetch
          { method := "GET", url := "/api/available-supplies", headers := [], body := none },
        Effect.setInnerHTML "suppliesList"
          (if supplies = [] then "<p>No supplies available at this time.</p>"
           else String.join (supplies.map (fun supply =>
            "\n" ++
            "        <div class=\"supply-card\">\n" ++
            "            <div>\n" ++
            "                <h4>" ++ toUpperCase supply.name ++ "</h4>\n" ++
            "                <p>Available: <strong>" ++
              numberToString largeNumberToString supply.quantity ++ " " ++
              (match supply.unit with
                | none => "units"
                | some u => if u = "" then "units" else u) ++ "</strong></p>\n" ++
            "            </div>\n" ++
            "            <div>\n" ++
            "                <input type=\"number\" id=\"qty-" ++ supply.name ++
              "\" min=\"1\" max=\"" ++ numberToString largeNumberToString supply.quantity ++
              "\" value=\"1\" style=\"width: 80px; padding: 8px;\">\n" ++
            "                <button class=\"btn btn-primary\" onclick=\"requestSupply('" ++
              supply.name ++ "', " ++ numberToString largeNumberToString supply.quantity ++
              ")\">Request</button>\n" ++
            "            </div>\n" ++
            "        </div>\n" ++
            "    "))) ]) ∧
    (∀ stations : List String, Nongov.loadStations stations =
      [ Effect.fetch
          { method := "GET", url := "/api/list-stations", headers := [], body := none },
        Effect.setInnerHTML "stationsList"
          (if stations = [] then "<p>No help stations registered yet.</p>"
           else String.join (stations.map (fun station =>
            "\n" ++
            "        <div class=\"station-card\">\n" ++
            "            <div>\n" ++
            "                <h4>🏢 " ++ station ++ "</h4>\n" ++
            "                <p>Available to provide assistance</p>\n" ++
            "            </div>\n" ++
            "        </div>\n" ++
            "    "))) ]) ∧
    (∀ n : Int, n.natAbs ≤ 2 ^ 53 → numberToString largeNumberToString n = toString n) := by
  refine ⟨?_, ?_, ?_, ?_, ?_, numberToString_of_le largeNumberToString⟩
  · intro supplies
    rw [gov_loadInventory_eq]
    rfl
  · intro reports
    rw [gov_loadReports_eq]
    rfl
  · intro stations
    rw [gov_loadStations_eq]
    rfl
  · intro supplies
    rw [nongov_loadSupplies_eq]
    rfl
  · intro stations
    rw [nongov_loadStations_eq]
    rfl

/-- An empty list of aid centres and an empty inventory. -/
theorem loaders_render_collection_witness :
    Gov.loadStations [] =
      [ Effect.fetch
          { method := "GET", url := "/api/stations", headers := [], body := none },
        Effect.setInnerHTML "stationsList" "<p>No aid centres registered.</p>" ] ∧
    Gov.loadInventory asciiToUpperCase toString [] =
      [ Effect.fetch
          { method := "GET", url := "/api/inventory", headers := [], body := none },
        Effect.setInnerHTML "inventoryList" "<p>No supplies in inventory.</p>" ] :=
  ⟨((loaders_render_collection asciiToUpperCase toString).2.2.1 []).trans rfl,
    ((loaders_render_collection asciiToUpperCase toString).1 []).trans rfl⟩

set_option maxRecDepth 100000 in
/-- An inventory of two supplies, the second without a unit. -/
theorem loadInventory_example :
    Gov.loadInventory asciiToUpperCase toString
        [ { name := "water", quantity := 12, unit := some "litres" },
          { name := "tents", quantity := 3, unit := none } ] =
      [ Effect.fetch
          { method := "GET", url := "/api/inventory", headers := [], body := none },
        Effect.setInnerHTML "inventoryList"
          ("\n" ++
           "        <div class=\"inventory-card\">\n" ++
           "            <div>\n" ++
           "                <h4>WATER</h4>\n" ++
           "                <p>Quantity: <strong>12 litres</strong></p>\n" ++
           "            </div>\n" ++
           "        </div>\n" ++
           "    " ++
           "\n" ++
           "        <div class=\"inventory-card\">\n" ++
           "            <div>\n" ++
           "                <h4>TENTS</h4>\n" ++
           "                <p>Quantity: <strong>3 units</strong></p>\n" ++
           "            </div>\n" ++
           "        </div>\n" ++
           "    ") ] := by
  decide

/-! ## The chat transcript -/

theorem head?_of_append_ne_nil {α : Type} (l t : List α) (h : l ≠ []) :
    (l ++ t).head? = l.head? := by
  cases l with
  | nil => exact absurd rfl h
  | cons a r => rfl

/-- What `trim` removes: white space before and after, and all of it. -/
theorem trim_spec (s : String) :
    ∃ lead trail : List Char,
      s.toList = lead ++ (trim s).toList ++ trail ∧
      (∀ c ∈ lead, isStrWhiteSpaceChar c = true) ∧
      (∀ c ∈ trail, isStrWhiteSpaceChar c = true) ∧
      (∀ c, (trim s).toList.head? = some c → isStrWhiteSpaceChar c = false) ∧
      (∀ c, (trim s).toList.getLast? = some c → isStrWhiteSpaceChar c = false) := by
  have hmid : s.toList.dropWhile isStrWhiteSpaceChar =
      ((s.toList.dropWhile isStrWhiteSpaceChar).reverse.dropWhile isStrWhiteSpaceChar).reverse ++
      ((s.toList.dropWhile isStrWhiteSpaceChar).reverse.takeWhile
        isStrWhiteSpaceChar).reverse := by
    rw [← List.reverse_append, List.takeWhile_append_dropWhile, List.reverse_reverse]
  have htrim : (trim s).toList =
      ((s.toList.dropWhile isStrWhiteSpaceChar).reverse.dropWhile
        isStrWhiteSpaceChar).reverse := rfl
  refine ⟨s.toList.takeWhile isStrWhiteSpaceChar,
    ((s.toList.dropWhile isStrWhiteSpaceChar).reverse.takeWhile isStrWhiteSpaceChar).reverse,
    ?_, ?_, ?_, ?_, ?_⟩
  · rw [htrim, List.append_assoc, ← hmid, List.takeWhile_append_dropWhile]
  · intro c hc
    exact List.mem_takeWhile_imp hc
  · intro c hc
    exact List.mem_takeWhile_imp (List.mem_reverse.mp hc)
  · intro c hc
    rw [htrim] at hc
    have hne : ((s.toList.dropWhile isStrWhiteSpaceChar).reverse.dropWhile
        isStrWhiteSpaceChar).reverse ≠ [] := by
      intro h
      rw [h] at hc
      cases hc
    have hhead : (s.toList.dropWhile isStrWhiteSpaceChar).head? = some c := by
      rw [hmid, head?_of_append_ne_nil _ _ hne]
      exact hc
    have := List.head?_dropWhile_not isStrWhiteSpaceChar s.toList
    rw [hhead] at this
    simpa using this
  · intro c hc
    rw [htrim, List.getLast?_reverse] at hc
    have := List.head?_dropWhile_not isStrWhiteSpaceChar
      (s.toList.dropWhile isStrWhiteSpaceChar).reverse
    rw [hc] at this
    simpa using this

/-- C9, as stated, fails: for the text `a & b` the first update assigns the user entry as
written; the browser serialises the chat box with the ampersand escaped, and the second update
assigns that markup followed by the bot entry. The transcript afterwards is not the old
transcript followed by the user entry with the trimmed text and the bot entry. -/
theorem sendMentalMessage_reads_markup_back :
    trim "a & b" = "a & b" ∧
    Nongov.sendMentalMessage "a & b" "" "<div class=\"chat-message user\">a &amp; b</div>"
        { ok := true, message := "ok" } =
      [ Effect.setInnerHTML "chatBox" "<div class=\"chat-message user\">a & b</div>",
        Effect.setValue "messageInput" "",
        Effect.scrollToBottom "chatBox",
        Effect.fetch
          { method := "POST", url := "/api/mental-health/message",
            headers := [("Content-Type", "application/json")],
            body := some [("message", .str "a & b")] },
        Effect.setInnerHTML "chatBox"
          "<div class=\"chat-message user\">a &amp; b</div><div class=\"chat-message bot\">ok</div>",
        Effect.scrollToBottom "chatBox" ] ∧
    "<div class=\"chat-message user\">a &amp; b</div><div class=\"chat-message bot\">ok</div>" ≠
      "" ++ "<div class=\"chat-message user\">a & b</div>" ++
        "<div class=\"chat-message bot\">ok</div>" := by
  decide

/-- C9, amended: when the text is empty after trimming, `sendMentalMessage` does nothing (no
assignment, no request). Otherwise it assigns the chat box the markup it reads followed by a
user entry with the trimmed text, empties the input and scrolls, then issues the POST to
`/api/mental-health/message` with the trimmed text, and after the response assigns the chat
box the markup it then reads followed by a bot entry with the server's message, and scrolls.
When the markup read back is the markup first assigned, the transcript afterwards is the old
one followed by the user entry and the bot entry, and the old transcript is a prefix of it.
Trimming removes white space, and only white space, at both ends. -/
theorem sendMentalMessage_appends (inputValue transcript readBack : String)
    (response : Response) :
    (trim inputValue = "" →
      Nongov.sendMentalMessage inputValue transcript readBack response = []) ∧
    (trim inputValue ≠ "" →
      Nongov.sendMentalMessage inputValue transcript readBack response =
        [ Effect.setInnerHTML "chatBox"
            (transcript ++ ("<div class=\"chat-message user\">" ++ trim inputValue ++ "</div>")),
          Effect.setValue "messageInput" "",
          Effect.scrollToBottom "chatBox",
          Effect.fetch
            { method := "POST", url := "/api/mental-health/message",
              headers := [("Content-Type", "application/json")],
              body := some [("message", .str (trim inputValue))] },
          Effect.setInnerHTML "chatBox"
            (readBack ++ ("<div class=\"chat-message bot\">" ++ response.message ++ "</div>")),
          Effect.scrollToBottom "chatBox" ]) ∧
    (trim inputValue ≠ "" →
      readBack =
        transcript ++ ("<div class=\"chat-message user\">" ++ trim inputValue ++ "</div>") →
      innerHTMLAfter "chatBox" transcript
          (Nongov.sendMentalMessage inputValue transcript readBack response) =
        transcript ++ ("<div class=\"chat-message user\">" ++ trim inputValue ++ "</div>") ++
          ("<div class=\"chat-message bot\">" ++ response.message ++ "</div>")) ∧
    (trim inputValue = "" ∨
        readBack =
          transcript ++ ("<div class=\"chat-message user\">" ++ trim inputValue ++ "</div>") →
      transcript.toList <+:
        (innerHTMLAfter "chatBox" transcript
          (Nongov.sendMentalMessage inputValue transcript readBack response)).toList) ∧
    (∃ lead trail : List Char,
      inputValue.toList = lead ++ (trim inputValue).toList ++ trail ∧
      (∀ c ∈ lead, isStrWhiteSpaceChar c = true) ∧
      (∀ c ∈ trail, isStrWhiteSpaceChar c = true) ∧
      (∀ c, (trim inputValue).toList.head? = some c → isStrWhiteSpaceChar c = false) ∧
      (∀ c, (trim inputValue).toList.getLast? = some c → isStrWhiteSpaceChar c = false)) := by
  refine ⟨?_, ?_, ?_, ?_, trim_spec inputValue⟩
  · intro hempty
    simp [Nongov.sendMentalMessage, hempty]
  · intro hne
    simp [Nongov.sendMentalMessage, hne, Nongov.userEntry, Nongov.botEntry,
      Nongov.messageRequest, Request.postJson]
  · intro hne hread
    simp [Nongov.sendMentalMessage, hne, innerHTMLAfter, hread, Nongov.userEntry,
      Nongov.botEntry]
  · intro h
    by_cases hempty : trim inputValue = ""
    · simp [Nongov.sendMentalMessage, hempty, innerHTMLAfter]
    · rcases h with h | hread
      · exact absurd h hempty
      · simp [Nongov.sendMentalMessage, hempty, innerHTMLAfter, hread, String.toList,
          List.append_assoc]

theorem sendMentalMessage_appends_witness :
    Nongov.sendMentalMessage "   " "" "" { ok := true, message := "hi" } = [] ∧
    innerHTMLAfter "chatBox" "<div class=\"chat-message bot\">welcome</div>"
        (Nongov.sendMentalMessage " hello " "<div class=\"chat-message bot\">welcome</div>"
          ("<div class=\"chat-message bot\">welcome</div>" ++
            ("<div class=\"chat-message user\">" ++ trim " hello " ++ "</div>"))
          { ok := true, message := "hi" }) =
      "<div class=\"chat-message bot\">welcome</div>" ++
        ("<div class=\"chat-message user\">" ++ trim " hello " ++ "</div>") ++
        ("<div class=\"chat-message bot\">" ++ "hi" ++ "</div>") :=
  ⟨(sendMentalMessage_appends "   " "" "" { ok := true, message := "hi" }).1 (by decide),
    (sendMentalMessage_appends " hello " "<div class=\"chat-message bot\">welcome</div>"
      ("<div class=\"chat-message bot\">welcome</div>" ++
        ("<div class=\"chat-message user\">" ++ trim " hello " ++ "</div>"))
      { ok := true, message := "hi" }).2.2.1 (by decide) rfl⟩

/-- The trimmed text of the example is `hello`. -/
theorem trim_example : trim " hello \n" = "hello" := by
  decide

/-! ## Tab switching -/

theorem getElem?_updateAt (doc : Document) (k m : Nat) (f : Element → Element) :
    (updateAt doc k f)[m]? = if m = k then (doc[k]?).map f else doc[m]? := by
  unfold updateAt
  cases hk : doc[k]? with
  | none =>
    by_cases hm : m = k
    · subst hm; simp [hk]
    · simp [hm]
  | some e =>
    have hlt : k < doc.length := by
      by_contra hge
      rw [List.getElem?_eq_none (by omega)] at hk
      cases hk
    by_cases hm : m = k
    · subst hm; simp [List.getElem?_set, hlt]
    · have hkm : ¬ k = m := fun h => hm h.symm
      simp [List.getElem?_set, hm, hkm]

theorem getElem?_forEachOfClass (cls : String) (f : Element → Element) (doc : Document)
    (m : Nat) :
    (forEachOfClass cls f doc)[m]? =
      (doc[m]?).map (fun e => if cls ∈ e.classList then f e else e) := by
  simp [forEachOfClass]

theorem mem_classListRemove (s t : String) (e : Element) :
    s ∈ (e.classListRemove t).classList ↔ s ∈ e.classList ∧ s ≠ t := by
  simp [Element.classListRemove, List.mem_filter]

theorem mem_classListAdd (s t : String) (e : Element) :
    s ∈ (e.classListAdd t).classList ↔ s ∈ e.classList ∨ s = t := by
  unfold Element.classListAdd
  split
  · rename_i h
    constructor
    · exact Or.inl
    · rintro (h1 | h1)
      · exact h1
      · subst h1; exact h
  · simp

theorem id_classListRemove (t : String) (e : Element) : (e.classListRemove t).id = e.id := rfl

theorem id_classListAdd (t : String) (e : Element) : (e.classListAdd t).id = e.id := by
  unfold Element.classListAdd
  split <;> rfl

theorem dataTab_classListRemove (t : String) (e : Element) :
    (e.classListRemove t).dataTab = e.dataTab := rfl

theorem dataTab_classListAdd (t : String) (e : Element) :
    (e.classListAdd t).dataTab = e.dataTab := by
  unfold Element.classListAdd
  split <;> rfl

theorem firstWithId_congr : ∀ (doc1 doc2 : Document) (t : String),
    doc1.map (fun e => e.id) = doc2.map (fun e => e.id) →
    firstWithId doc1 t = firstWithId doc2 t := by
  intro doc1
  induction doc1 with
  | nil =>
    intro doc2 t h
    cases doc2 with
    | nil => rfl
    | cons e es => simp at h
  | cons d ds ih =>
    intro doc2 t h
    cases doc2 with
    | nil => simp at h
    | cons e es =>
      simp only [List.map_cons, List.cons.injEq] at h
      simp only [firstWithId, h.1, ih es t h.2]

theorem getElementById_congr (doc1 doc2 : Document) (t : String)
    (h : doc1.map (fun e => e.id) = doc2.map (fun e => e.id)) :
    getElementById doc1 t = getElementById doc2 t := by
  unfold getElementById
  rw [firstWithId_congr doc1 doc2 t h]

theorem firstWithId_some : ∀ (doc : Document) (t : String) (j : Nat),
    firstWithId doc t = some j → ∃ e, doc[j]? = some e ∧ e.id = some t := by
  intro doc
  induction doc with
  | nil => intro t j h; simp [firstWithId] at h
  | cons d ds ih =>
    intro t j h
    simp only [firstWithId] at h
    split at h
    · rename_i hd
      cases h
      exact ⟨d, by simp, hd⟩
    · cases hrec : firstWithId ds t with
      | none => simp [hrec] at h
      | some k =>
        simp [hrec] at h
        subst h
        obtain ⟨e, he, hid⟩ := ih t k hrec
        exact ⟨e, by simpa using he, hid⟩

theorem getElementById_some (doc : Document) (t : String) (j : Nat)
    (h : getElementById doc t = some j) : ∃ e, doc[j]? = some e ∧ e.id = some t := by
  unfold getElementById at h
  split at h
  · cases h
  · exact firstWithId_some doc t j h

theorem id_afterClick (i j k : Nat) (e : Element) : (afterClick i j k e).id = e.id := by
  unfold afterClick
  simp only
  split_ifs <;> simp [id_classListAdd, id_classListRemove]

theorem activateTab_eq (doc : Document) (i j : Nat) (b : Element) (t : String)
    (hb : doc[i]? = some b) (ht : b.dataTab = some t) (hj : getElementById doc t = some j) :
    (∀ k, (activateTab doc i).1[k]? = (doc[k]?).map (afterClick i j k)) ∧
    (activateTab doc i).2 = some (some t) := by
  have h3 : ∀ k, (updateAt (forEachOfClass "tab-content" (Element.classListRemove "active")
      (forEachOfClass "tab-button" (Element.classListRemove "active") doc)) i
      (Element.classListAdd "active"))[k]? =
      (doc[k]?).map (fun e =>
        let e1 := if "tab-button" ∈ e.classList then e.classListRemove "active" else e
        let e2 := if "tab-content" ∈ e1.classList then e1.classListRemove "active" else e1
        if k = i then e2.classListAdd "active" else e2) := by
    intro k
    rw [getElem?_updateAt]
    by_cases hk : k = i
    · subst hk
      simp [getElem?_forEachOfClass, hb]
    · simp only [hk, if_false, getElem?_forEachOfClass, Option.map_map]
      rfl
  have hids : (updateAt (forEachOfClass "tab-content" (Element.classListRemove "active")
      (forEachOfClass "tab-button" (Element.classListRemove "active") doc)) i
      (Element.classListAdd "active")).map (fun e => e.id) = doc.map (fun e => e.id) := by
    apply List.ext_getElem?
    intro k
    rw [List.getElem?_map, List.getElem?_map, h3 k]
    cases doc[k]? with
    | none => rfl
    | some e =>
      simp only [Option.map_some']
      congr 1
      split_ifs <;> simp [id_classListAdd, id_classListRemove]
  have htab : ((updateAt (forEachOfClass "tab-content" (Element.classListRemove "active")
      (forEachOfClass "tab-button" (Element.classListRemove "active") doc)) i
      (Element.classListAdd "active"))[i]?).bind (fun b => b.dataTab) = some t := by
    rw [h3 i, hb]
    simp only [Option.map_some', Option.some_bind, if_true]
    rw [dataTab_classListAdd]
    split_ifs <;> simp [dataTab_classListRemove, ht]
  have hget := getElementById_congr _ _ t hids
  rw [hj] at hget
  unfold activateTab
  simp only [htab, Option.getD_some, hget]
  refine ⟨?_, trivial⟩
  intro k
  rw [getElem?_updateAt]
  by_cases hk : k = j
  · subst hk
    rw [if_pos rfl, h3 k]
    cases doc[k]? with
    | none => rfl
    | some e => simp [afterClick]
  · rw [if_neg hk, h3 k]
    cases doc[k]? with
    | none => rfl
    | some e => simp [afterClick, hk]

theorem mem_afterClick_of_ne (i j k : Nat) (e : Element) (s : String) (hs : s ≠ "active") :
    s ∈ (afterClick i j k e).classList ↔ s ∈ e.classList := by
  unfold afterClick
  simp only
  split_ifs <;> simp [mem_classListAdd, mem_classListRemove, hs]

theorem active_afterClick (i j k : Nat) (e : Element) :
    "active" ∈ (afterClick i j k e).classList ↔
      (k = i ∨ k = j ∨
        ("active" ∈ e.classList ∧ "tab-button" ∉ e.classList ∧ "tab-content" ∉ e.classList)) := by
  unfold afterClick
  simp only
  split_ifs <;> simp_all [mem_classListAdd, mem_classListRemove]

theorem gov_tabButtonClick_doc (doc : Document) (button : Nat) :
    (Gov.tabButtonClick doc button).doc = (activateTab doc button).1 := by
  unfold Gov.tabButtonClick
  split <;> simp_all

theorem nongov_tabButtonClick_doc (doc : Document) (button : Nat) :
    (Nongov.tabButtonClick doc button).doc = (activateTab doc button).1 := by
  unfold Nongov.tabButtonClick
  split <;> simp_all

theorem gov_tabButtonClick_loaders (doc : Document) (button : Nat) (tabId : Option String)
    (h : (activateTab doc button).2 = some tabId) :
    (Gov.tabButtonClick doc button).loaders.isSome = true := by
  unfold Gov.tabButtonClick
  split <;> simp_all

theorem nongov_tabButtonClick_loaders (doc : Document) (button : Nat) (tabId : Option String)
    (h : (activateTab doc button).2 = some tabId) :
    (Nongov.tabButtonClick doc button).loaders.isSome = true := by
  unfold Nongov.tabButtonClick
  split <;> simp_all

theorem countP_eq_one_of_unique {α : Type} (p : α → Bool) : ∀ (l : List α) (i : Nat),
    i < l.length → (∀ k e, l[k]? = some e → (p e = true ↔ k = i)) → l.countP p = 1 := by
  intro l
  induction l with
  | nil => intro i hi _; simp at hi
  | cons x xs ih =>
    intro i hi h
    cases i with
    | zero =>
      have hx : p x = true := (h 0 x (by simp)).mpr rfl
      have hxs : xs.countP p = 0 := by
        rw [List.countP_eq_zero]
        intro e he
        obtain ⟨k, hk⟩ := List.mem_iff_getElem?.mp he
        have := h (k + 1) e (by simpa using hk)
        intro hpe
        exact absurd (this.mp hpe) (by omega)
      simp [List.countP_cons, hx, hxs]
    | succ i' =>
      have hx : ¬ p x = true := fun hpx => absurd ((h 0 x (by simp)).mp hpx) (by omega)
      have hrec := ih i' (by simpa using hi) (fun k e hk => by
        have := h (k + 1) e (by simpa using hk)
        constructor
        · intro hpe; have := this.mp hpe; omega
        · intro hk'; exact this.mpr (by omega))
      simp [List.countP_cons, hx, hrec]

/-- The two facts the tab handlers establish on the document an `activateTab` returns. -/
theorem activateTab_exactly_one_of (doc : Document) (i j : Nat) (b p : Element) (t : String)
    (hb : doc[i]? = some b) (hbutton : "tab-button" ∈ b.classList)
    (hbnp : "tab-content" ∉ b.classList) (htab : b.dataTab = some t)
    (hj : getElementById doc t = some j) (hp : doc[j]? = some p)
    (hpanel : "tab-content" ∈ p.classList) (hpnb : "tab-button" ∉ p.classList)
    (hids : ∀ (k1 k2 : Nat) (e1 e2 : Element), doc[k1]? = some e1 → doc[k2]? = some e2 →
      "tab-content" ∈ e1.classList → "tab-content" ∈ e2.classList → e1.id = e2.id →
      e2.id = some t → k1 = k2) :
    (activateTab doc i).1.length = doc.length ∧
    (∀ (k : Nat) (e : Element), (activateTab doc i).1[k]? = some e →
      (("tab-button" ∈ e.classList ∧ "active" ∈ e.classList) ↔ k = i)) ∧
    (∀ (k : Nat) (e : Element), (activateTab doc i).1[k]? = some e →
      (("tab-content" ∈ e.classList ∧ "active" ∈ e.classList) ↔ k = j)) ∧
    (∀ (k : Nat) (e : Element), (activateTab doc i).1[k]? = some e → "tab-content" ∈ e.classList →
      ("active" ∈ e.classList ↔ e.id = some t)) := by
  obtain ⟨hdoc, _⟩ := activateTab_eq doc i j b t hb htab hj
  have hb' : "tab-content" ∉ b.classList := hbnp
  have hp' : "tab-button" ∉ p.classList := hpnb
  have hpid : p.id = some t := by
    obtain ⟨e, he, hid⟩ := getElementById_some doc t j hj
    rw [hp] at he
    cases he
    exact hid
  have hne1 : ("tab-button" : String) ≠ "active" := by decide
  have hne2 : ("tab-content" : String) ≠ "active" := by decide
  have hlen : (activateTab doc i).1 = doc.mapIdx (fun k e => afterClick i j k e) := by
    apply List.ext_getElem?
    intro k
    rw [hdoc k, List.getElem?_mapIdx]
  have key : ∀ (k : Nat) (e : Element), (activateTab doc i).1[k]? = some e →
      ∃ e0, doc[k]? = some e0 ∧ e = afterClick i j k e0 := by
    intro k e hk
    rw [hdoc k] at hk
    cases h0 : doc[k]? with
    | none => simp [h0] at hk
    | some e0 =>
      simp only [h0, Option.map_some', Option.some.injEq] at hk
      exact ⟨e0, rfl, hk.symm⟩
  refine ⟨by rw [hlen, List.length_mapIdx], ?_, ?_, ?_⟩
  · intro k e hk
    obtain ⟨e0, h0, rfl⟩ := key k e hk
    rw [mem_afterClick_of_ne i j k e0 _ hne1, active_afterClick]
    constructor
    · rintro ⟨hbt, hki | hkj | ⟨_, hnb, _⟩⟩
      · exact hki
      · subst hkj
        rw [hp] at h0
        cases h0
        exact absurd hbt hp'
      · exact absurd hbt hnb
    · intro hki
      subst hki
      rw [hb] at h0
      cases h0
      exact ⟨hbutton, Or.inl rfl⟩
  · intro k e hk
    obtain ⟨e0, h0, rfl⟩ := key k e hk
    rw [mem_afterClick_of_ne i j k e0 _ hne2, active_afterClick]
    constructor
    · rintro ⟨hpt, hki | hkj | ⟨_, _, hnp⟩⟩
      · subst hki
        rw [hb] at h0
        cases h0
        exact absurd hpt hb'
      · exact hkj
      · exact absurd hpt hnp
    · intro hkj
      subst hkj
      rw [hp] at h0
      cases h0
      exact ⟨hpanel, Or.inr (Or.inl rfl)⟩
  · intro k e hk hpt
    obtain ⟨e0, h0, rfl⟩ := key k e hk
    rw [mem_afterClick_of_ne i j k e0 _ hne2] at hpt
    rw [active_afterClick, id_afterClick]
    constructor
    · rintro (hki | hkj | ⟨_, _, hnp⟩)
      · subst hki
        rw [hb] at h0
        cases h0
        exact absurd hpt hb'
      · subst hkj
        rw [hp] at h0
        cases h0
        exact hpid
      · exact absurd hpt hnp
    · intro hid
      exact Or.inr (Or.inl (hids k j e0 p h0 hp hpt hpanel (hid.trans hpid.symm) hpid))

theorem index_unique_of_nodup {α β : Type} (q : α → Bool) (f : α → Option β) :
    ∀ (l : List α), ((l.filter q).filterMap f).Nodup →
    ∀ (k1 k2 : Nat) (e1 e2 : α) (t : β), l[k1]? = some e1 → l[k2]? = some e2 →
      q e1 = true → q e2 = true → f e1 = some t → f e2 = some t → k1 = k2 := by
  intro l
  induction l with
  | nil => intro _ k1 k2 e1 e2 t h1; simp at h1
  | cons x xs ih =>
    intro hnd k1 k2 e1 e2 t h1 h2 hq1 hq2 hf1 hf2
    have hsub : ((xs.filter q).filterMap f).Nodup := by
      refine List.Nodup.sublist ?_ hnd
      exact List.Sublist.filterMap f (List.Sublist.filter q (List.sublist_cons_self x xs))
    have hin : ∀ (k : Nat) (e : α), xs[k]? = some e → q e = true → f e = some t →
        t ∈ (xs.filter q).filterMap f := by
      intro k e hk hq hf
      rw [List.mem_filterMap]
      exact ⟨e, List.mem_filter.mpr ⟨List.mem_iff_getElem?.mpr ⟨k, hk⟩, hq⟩, hf⟩
    have hhead : ∀ e : α, x = e → q e = true → f e = some t →
        t ∉ (xs.filter q).filterMap f := by
      intro e hxe hq hf
      subst hxe
      rw [List.filter_cons_of_pos hq, List.filterMap_cons_some hf] at hnd
      exact (List.nodup_cons.mp hnd).1
    cases k1 with
    | zero =>
      cases k2 with
      | zero => rfl
      | succ k2' =>
        simp only [List.getElem?_cons_zero, Option.some.injEq] at h1
        simp only [List.getElem?_cons_succ] at h2
        exact absurd (hin k2' e2 h2 hq2 hf2) (hhead e1 h1 hq1 hf1)
    | succ k1' =>
      cases k2 with
      | zero =>
        simp only [List.getElem?_cons_zero, Option.some.injEq] at h2
        simp only [List.getElem?_cons_succ] at h1
        exact absurd (hin k1' e1 h1 hq1 hf1) (hhead e2 h2 hq2 hf2)
      | succ k2' =>
        simp only [List.getElem?_cons_succ] at h1 h2
        rw [ih hsub k1' k2' e1 e2 t h1 h2 hq1 hq2 hf1 hf2]

/-- C10: in both dashboards, whatever buttons and panels were marked active before, a click on
a tab button whose `data-tab` is the id of a panel leaves exactly one active tab button, the
clicked one, and exactly one active panel, the one with that id. The clicked button is not
itself a panel, the named panel is not itself a tab button, and the ids of the panels are
distinct. -/
theorem tab_click_leaves_one_active (doc : Document) (i j : Nat) (b p : Element) (t : String)
    (hb : doc[i]? = some b) (hbutton : "tab-button" ∈ b.classList)
    (hbnp : "tab-content" ∉ b.classList) (htab : b.dataTab = some t)
    (hj : getElementById doc t = some j) (hp : doc[j]? = some p)
    (hpanel : "tab-content" ∈ p.classList) (hpnb : "tab-button" ∉ p.classList)
    (hids : ((doc.filter (fun e => decide ("tab-content" ∈ e.classList))).filterMap
      (fun e => e.id)).Nodup) :
    ∀ result ∈ [Gov.tabButtonClick doc i, Nongov.tabButtonClick doc i],
      result.loaders.isSome = true ∧
      result.doc.length = doc.length ∧
      (∀ (k : Nat) (e : Element), result.doc[k]? = some e →
        (("tab-button" ∈ e.classList ∧ "active" ∈ e.classList) ↔ k = i)) ∧
      (∀ (k : Nat) (e : Element), result.doc[k]? = some e →
        (("tab-content" ∈ e.classList ∧ "active" ∈ e.classList) ↔ k = j)) ∧
      (∀ (k : Nat) (e : Element), result.doc[k]? = some e → "tab-content" ∈ e.classList →
        ("active" ∈ e.classList ↔ e.id = some t)) ∧
      result.doc.countP
        (fun e => decide ("tab-button" ∈ e.classList ∧ "active" ∈ e.classList)) = 1 ∧
      result.doc.countP
        (fun e => decide ("tab-content" ∈ e.classList ∧ "active" ∈ e.classList)) = 1 := by
  have hids' : ∀ (k1 k2 : Nat) (e1 e2 : Element), doc[k1]? = some e1 → doc[k2]? = some e2 →
      "tab-content" ∈ e1.classList → "tab-content" ∈ e2.classList → e1.id = e2.id →
      e2.id = some t → k1 = k2 := by
    intro k1 k2 e1 e2 h1 h2 hq1 hq2 hid ht2
    exact index_unique_of_nodup (fun e => decide ("tab-content" ∈ e.classList))
      (fun e => e.id) doc hids k1 k2 e1 e2 t h1 h2 (by simpa using hq1) (by simpa using hq2)
      (hid.trans ht2) ht2
  have hloaders := (activateTab_eq doc i j b t hb htab hj).2
  have hi : i < doc.length := by
    by_contra hge
    rw [List.getElem?_eq_none (by omega)] at hb
    cases hb
  have hjlt : j < doc.length := by
    by_contra hge
    rw [List.getElem?_eq_none (by omega)] at hp
    cases hp
  have main : ∀ D : Document, D = (activateTab doc i).1 →
      D.length = doc.length ∧
      (∀ (k : Nat) (e : Element), D[k]? = some e →
        (("tab-button" ∈ e.classList ∧ "active" ∈ e.classList) ↔ k = i)) ∧
      (∀ (k : Nat) (e : Element), D[k]? = some e →
        (("tab-content" ∈ e.classList ∧ "active" ∈ e.classList) ↔ k = j)) ∧
      (∀ (k : Nat) (e : Element), D[k]? = some e → "tab-content" ∈ e.classList →
        ("active" ∈ e.classList ↔ e.id = some t)) ∧
      D.countP (fun e => decide ("tab-button" ∈ e.classList ∧ "active" ∈ e.classList)) = 1 ∧
      D.countP (fun e => decide ("tab-content" ∈ e.classList ∧ "active" ∈ e.classList)) = 1 := by
    intro D hD
    subst hD
    obtain ⟨hlen, hbuttons, hpanels, hnamed⟩ :=
      activateTab_exactly_one_of doc i j b p t hb hbutton hbnp htab hj hp hpanel hpnb hids'
    refine ⟨hlen, hbuttons, hpanels, hnamed, ?_, ?_⟩
    · exact countP_eq_one_of_unique _ _ i (by omega)
        (fun k e hk => by simpa using hbuttons k e hk)
    · exact countP_eq_one_of_unique _ _ j (by omega)
        (fun k e hk => by simpa using hpanels k e hk)
  intro result hresult
  simp only [List.mem_cons, List.mem_singleton, List.not_mem_nil, or_false] at hresult
  rcases hresult with rfl | rfl
  · exact ⟨gov_tabButtonClick_loaders doc i _ hloaders,
      main _ (gov_tabButtonClick_doc doc i)⟩
  · exact ⟨nongov_tabButtonClick_loaders doc i _ hloaders,
      main _ (nongov_tabButtonClick_doc doc i)⟩

/-- A government dashboard with the inventory tab active: a click on the reports button. -/
theorem tab_click_leaves_one_active_witness :
    (Gov.tabButtonClick
      [ { id := none, classList := ["tab-button", "active"], dataTab := some "inventory" },
        { id := none, classList := ["tab-button"], dataTab := some "reports" },
        { id := some "inventory", classList := ["tab-content", "active"], dataTab := none },
        { id := some "reports", classList := ["tab-content"], dataTab := none } ] 1).doc.countP
      (fun e => decide ("tab-content" ∈ e.classList ∧ "active" ∈ e.classList)) = 1 :=
  (tab_click_leaves_one_active
    [ { id := none, classList := ["tab-button", "active"], dataTab := some "inventory" },
      { id := none, classList := ["tab-button"], dataTab := some "reports" },
      { id := some "inventory", classList := ["tab-content", "active"], dataTab := none },
      { id := some "reports", classList := ["tab-content"], dataTab := none } ] 1 3
    { id := none, classList := ["tab-button"], dataTab := some "reports" }
    { id := some "reports", classList := ["tab-content"], dataTab := none } "reports"
    rfl (by decide) (by decide) rfl (by decide) rfl (by decide) (by decide) (by decide)
    _ (List.mem_cons_self _ _)).2.2.2.2.2.2

end DisasterAid
